import Mathlib

/-!
Shallow embedding of the icfpc2019 grid-coverage solver (src/main.rs and
src/parser.rs) together with proofs about the claims of its design
specification.  Rust `usize`/`isize` values are modelled as `Nat`/`Int`,
`f64` scores as `ℚ`, `HashSet`/`HashMap` as lists with explicit
membership-based insertion, panics (`assert!`, `panic!`, `unimplemented!`,
index errors) as `Option`/`Except String`, and unbounded loops take an
explicit fuel argument (`none` = fuel exhausted, which the original
program never observes).
-/

namespace Icfp

deriving instance DecidableEq for Except

/-- Mirrors `struct Point { x: isize, y: isize }`. -/
structure Point where
  x : Int
  y : Int
  deriving DecidableEq, Repr

/-- Mirrors `enum Cell { EMPTY, BLOCKED, WRAPPED }`. -/
inductive Cell where
  | EMPTY
  | BLOCKED
  | WRAPPED
  deriving DecidableEq, Repr

/-- Mirrors `enum Action { UP, RIGHT, DOWN, LEFT, JUMP0, JUMP1, JUMP2 }`. -/
inductive Action where
  | UP
  | RIGHT
  | DOWN
  | LEFT
  | JUMP0
  | JUMP1
  | JUMP2
  deriving DecidableEq, Repr

/-- Mirrors `enum Bonus { HAND, WHEELS, DRILL, TELEPORT, CLONE }`. -/
inductive Bonus where
  | HAND
  | WHEELS
  | DRILL
  | TELEPORT
  | CLONE
  deriving DecidableEq, Repr

/-- Association-list lookup, mirroring `HashMap::get` for the collected-bonus map. -/
def aGet : List (Bonus × Nat) → Bonus → Option Nat
  | [], _ => none
  | (k0, v0) :: rest, k => if k0 = k then some v0 else aGet rest k

/-- Mirrors `fn get_or(m, k, default)`. -/
def get_or (m : List (Bonus × Nat)) (k : Bonus) (default : Nat) : Nat :=
  match aGet m k with
  | some v => v
  | none => default

/-- Association-list insert-or-replace, mirroring `HashMap::insert`. -/
def aInsert : List (Bonus × Nat) → Bonus → Nat → List (Bonus × Nat)
  | [], k, v => [(k, v)]
  | (k0, v0) :: rest, k, v => if k0 = k then (k, v) :: rest else (k0, v0) :: aInsert rest k v

/-- Association-list removal, mirroring `HashMap::remove`. -/
def aRemove : List (Bonus × Nat) → Bonus → List (Bonus × Nat)
  | [], _ => []
  | (k0, v0) :: rest, k => if k0 = k then rest else (k0, v0) :: aRemove rest k

/-- Mirrors `fn update(m, k, delta)`: add `delta`, keep the key only while positive. -/
def update (m : List (Bonus × Nat)) (k : Bonus) (delta : Int) : List (Bonus × Nat) :=
  let old_v : Nat := get_or m k 0
  let new_v : Int := (old_v : Int) + delta
  if 0 < new_v then aInsert m k new_v.toNat else aRemove m k

/-- Lookup in the position-to-bonus map, mirroring `HashMap::get` on `bonuses`. -/
def pGet : List (Point × Bonus) → Point → Option Bonus
  | [], _ => none
  | (k0, v0) :: rest, k => if k0 = k then some v0 else pGet rest k

/-- Removal from the position-to-bonus map, mirroring `HashMap::remove`. -/
def pRemove : List (Point × Bonus) → Point → List (Point × Bonus)
  | [], _ => []
  | (k0, v0) :: rest, k => if k0 = k then rest else (k0, v0) :: pRemove rest k

/-- Membership-based insertion into a set-as-list, mirroring `HashSet::insert`;
the canonical order is insertion order. -/
def insertP (l : List Point) (p : Point) : List Point :=
  if p ∈ l then l else l ++ [p]

/-- Mirrors `struct Level`.  `zones` stores `u8` ids as `Nat` with
`UNDECIDED_ZONE = 255`. -/
structure Level where
  grid : List Cell
  weights : List Nat
  zones : List Nat
  width : Int
  height : Int
  empty : Nat
  zones_empty : List Nat
  spawns : List Point
  beakons : List Point
  bonuses : List (Point × Bonus)
  collected : List (Bonus × Nat)
  deriving DecidableEq, Repr

/-- Mirrors `struct Drone`. -/
structure Drone where
  pos : Point
  hands : List Point
  wheels : Nat
  drill : Nat
  path : String
  plan : List Action
  zone : Nat
  deriving DecidableEq, Repr

/-- Mirrors `Drone::new`. -/
def Drone.new (pos : Point) : Drone :=
  { pos := pos
    hands := [⟨0, 0⟩, ⟨1, -1⟩, ⟨1, 0⟩, ⟨1, 1⟩]
    wheels := 0
    drill := 0
    path := ""
    plan := []
    zone := 255 }

/-- Mirrors `Level::grid_idx`: `(x + y * self.width) as usize`. -/
def Level.grid_idx (l : Level) (x y : Int) : Nat :=
  (x + y * l.width).toNat

/-- Mirrors `Level::valid`. -/
def Level.valid (l : Level) (x y : Int) : Bool :=
  decide (0 ≤ x) && decide (x < l.width) && decide (0 ≤ y) && decide (y < l.height)

/-- Mirrors `Level::get_cell`; the bounds `assert!` becomes `Except.error`. -/
def Level.get_cell (l : Level) (x y : Int) : Except String Cell :=
  if l.valid x y then Except.ok (l.grid.getD (l.grid_idx x y) Cell.BLOCKED)
  else Except.error "get_cell: out of bounds"

/-- Mirrors `Level::get_zone`; the bounds `assert!` becomes `Except.error`. -/
def Level.get_zone (l : Level) (x y : Int) : Except String Nat :=
  if l.valid x y then Except.ok (l.zones.getD (l.grid_idx x y) 255)
  else Except.error "get_zone: out of bounds"

/-- Mirrors `Level::walkable`: valid bounds and cell not `BLOCKED`. -/
def Level.walkable (l : Level) (x y : Int) : Bool :=
  l.valid x y && decide (l.grid.getD (l.grid_idx x y) Cell.BLOCKED ≠ Cell.BLOCKED)

/-- Mirrors `Level::wrap_cell`; both `assert!`s become `none`.  On success the
cell becomes `WRAPPED`, the global empty counter is decremented and, when the
cell's zone is assigned (`< 255`), its per-zone counter is decremented. -/
def Level.wrap_cell (l : Level) (x y : Int) : Option Level :=
  if l.valid x y then
    let idx := l.grid_idx x y
    if l.grid.getD idx Cell.BLOCKED = Cell.EMPTY then
      let zone := l.zones.getD idx 255
      some { l with
        grid := l.grid.set idx Cell.WRAPPED
        empty := l.empty - 1
        zones_empty :=
          if zone < 255 then l.zones_empty.set zone (l.zones_empty.getD zone 0 - 1)
          else l.zones_empty }
    else none
  else none

/-- Mirrors `Level::drill_cell`; both `assert!`s become `none`.  On success the
cell becomes `WRAPPED` and no counter is touched. -/
def Level.drill_cell (l : Level) (x y : Int) : Option Level :=
  if l.valid x y then
    let idx := l.grid_idx x y
    if l.grid.getD idx Cell.BLOCKED = Cell.BLOCKED then
      some { l with grid := l.grid.set idx Cell.WRAPPED }
    else none
  else none

/-- Mirrors `fn hand_blocker`; the `unimplemented!()` arm becomes `none`. -/
def hand_blocker (p : Point) : Option (List Point) :=
  if p = ⟨0, 0⟩ then some [⟨0, 0⟩]
  else if p = ⟨1, -1⟩ then some [⟨1, -1⟩]
  else if p = ⟨1, 0⟩ then some [⟨1, 0⟩]
  else if p = ⟨1, 1⟩ then some [⟨1, 1⟩]
  else if p = ⟨1, 2⟩ then some [⟨0, 1⟩, ⟨0, 2⟩, ⟨1, 1⟩, ⟨1, 2⟩, ⟨1, 3⟩]
  else if p = ⟨1, 3⟩ then some [⟨0, 1⟩, ⟨0, 2⟩, ⟨1, 2⟩, ⟨1, 3⟩, ⟨1, 4⟩]
  else if p = ⟨1, 4⟩ then some [⟨0, 1⟩, ⟨0, 2⟩, ⟨0, 3⟩, ⟨1, 2⟩, ⟨1, 3⟩, ⟨1, 4⟩, ⟨1, 5⟩]
  else if p = ⟨1, 5⟩ then some [⟨0, 1⟩, ⟨0, 2⟩, ⟨0, 3⟩, ⟨1, 3⟩, ⟨1, 4⟩, ⟨1, 5⟩, ⟨1, 6⟩]
  else if p = ⟨1, 6⟩ then some [⟨0, 1⟩, ⟨0, 2⟩, ⟨0, 3⟩, ⟨0, 4⟩, ⟨1, 3⟩, ⟨1, 4⟩, ⟨1, 5⟩, ⟨1, 6⟩, ⟨1, 7⟩]
  else if p = ⟨1, 7⟩ then some [⟨0, 1⟩, ⟨0, 2⟩, ⟨0, 3⟩, ⟨0, 4⟩, ⟨1, 4⟩, ⟨1, 5⟩, ⟨1, 6⟩, ⟨1, 7⟩, ⟨1, 8⟩]
  else if p = ⟨1, 8⟩ then some [⟨0, 1⟩, ⟨0, 2⟩, ⟨0, 3⟩, ⟨0, 4⟩, ⟨0, 5⟩, ⟨1, 4⟩, ⟨1, 5⟩, ⟨1, 6⟩, ⟨1, 7⟩, ⟨1, 8⟩, ⟨1, 9⟩]
  else if p = ⟨1, 9⟩ then some [⟨0, 1⟩, ⟨0, 2⟩, ⟨0, 3⟩, ⟨0, 4⟩, ⟨0, 5⟩, ⟨1, 5⟩, ⟨1, 6⟩, ⟨1, 7⟩, ⟨1, 8⟩, ⟨1, 9⟩, ⟨1, 10⟩]
  else if p = ⟨1, 10⟩ then some [⟨0, 1⟩, ⟨0, 2⟩, ⟨0, 3⟩, ⟨0, 4⟩, ⟨0, 5⟩, ⟨0, 6⟩, ⟨1, 5⟩, ⟨1, 6⟩, ⟨1, 7⟩, ⟨1, 8⟩, ⟨1, 9⟩, ⟨1, 10⟩, ⟨1, 11⟩]
  else if p = ⟨1, 11⟩ then some [⟨0, 1⟩, ⟨0, 2⟩, ⟨0, 3⟩, ⟨0, 4⟩, ⟨0, 5⟩, ⟨0, 6⟩, ⟨1, 6⟩, ⟨1, 7⟩, ⟨1, 8⟩, ⟨1, 9⟩, ⟨1, 10⟩, ⟨1, 11⟩, ⟨1, 12⟩]
  else if p = ⟨1, 12⟩ then some [⟨0, 1⟩, ⟨0, 2⟩, ⟨0, 3⟩, ⟨0, 4⟩, ⟨0, 5⟩, ⟨0, 6⟩, ⟨0, 7⟩, ⟨1, 6⟩, ⟨1, 7⟩, ⟨1, 8⟩, ⟨1, 9⟩, ⟨1, 10⟩, ⟨1, 11⟩, ⟨1, 12⟩, ⟨1, 13⟩]
  else if p = ⟨1, 13⟩ then some [⟨0, 1⟩, ⟨0, 2⟩, ⟨0, 3⟩, ⟨0, 4⟩, ⟨0, 5⟩, ⟨0, 6⟩, ⟨0, 7⟩, ⟨1, 7⟩, ⟨1, 8⟩, ⟨1, 9⟩, ⟨1, 10⟩, ⟨1, 11⟩, ⟨1, 12⟩, ⟨1, 13⟩, ⟨1, 14⟩]
  else if p = ⟨1, 14⟩ then some [⟨0, 1⟩, ⟨0, 2⟩, ⟨0, 3⟩, ⟨0, 4⟩, ⟨0, 5⟩, ⟨0, 6⟩, ⟨0, 7⟩, ⟨0, 8⟩, ⟨1, 7⟩, ⟨1, 8⟩, ⟨1, 9⟩, ⟨1, 10⟩, ⟨1, 11⟩, ⟨1, 12⟩, ⟨1, 13⟩, ⟨1, 14⟩, ⟨1, 15⟩]
  else if p = ⟨1, 15⟩ then some [⟨0, 1⟩, ⟨0, 2⟩, ⟨0, 3⟩, ⟨0, 4⟩, ⟨0, 5⟩, ⟨0, 6⟩, ⟨0, 7⟩, ⟨0, 8⟩, ⟨1, 8⟩, ⟨1, 9⟩, ⟨1, 10⟩, ⟨1, 11⟩, ⟨1, 12⟩, ⟨1, 13⟩, ⟨1, 14⟩, ⟨1, 15⟩, ⟨1, 16⟩]
  else if p = ⟨1, 16⟩ then some [⟨0, 1⟩, ⟨0, 2⟩, ⟨0, 3⟩, ⟨0, 4⟩, ⟨0, 5⟩, ⟨0, 6⟩, ⟨0, 7⟩, ⟨0, 8⟩, ⟨0, 9⟩, ⟨1, 8⟩, ⟨1, 9⟩, ⟨1, 10⟩, ⟨1, 11⟩, ⟨1, 12⟩, ⟨1, 13⟩, ⟨1, 14⟩, ⟨1, 15⟩, ⟨1, 16⟩, ⟨1, 17⟩]
  else if p = ⟨1, 17⟩ then some [⟨0, 1⟩, ⟨0, 2⟩, ⟨0, 3⟩, ⟨0, 4⟩, ⟨0, 5⟩, ⟨0, 6⟩, ⟨0, 7⟩, ⟨0, 8⟩, ⟨0, 9⟩, ⟨1, 9⟩, ⟨1, 10⟩, ⟨1, 11⟩, ⟨1, 12⟩, ⟨1, 13⟩, ⟨1, 14⟩, ⟨1, 15⟩, ⟨1, 16⟩, ⟨1, 17⟩, ⟨1, 18⟩]
  else if p = ⟨1, 18⟩ then some [⟨0, 1⟩, ⟨0, 2⟩, ⟨0, 3⟩, ⟨0, 4⟩, ⟨0, 5⟩, ⟨0, 6⟩, ⟨0, 7⟩, ⟨0, 8⟩, ⟨0, 9⟩, ⟨0, 10⟩, ⟨1, 9⟩, ⟨1, 10⟩, ⟨1, 11⟩, ⟨1, 12⟩, ⟨1, 13⟩, ⟨1, 14⟩, ⟨1, 15⟩, ⟨1, 16⟩, ⟨1, 17⟩, ⟨1, 18⟩, ⟨1, 19⟩]
  else if p = ⟨1, 19⟩ then some [⟨0, 1⟩, ⟨0, 2⟩, ⟨0, 3⟩, ⟨0, 4⟩, ⟨0, 5⟩, ⟨0, 6⟩, ⟨0, 7⟩, ⟨0, 8⟩, ⟨0, 9⟩, ⟨0, 10⟩, ⟨1, 10⟩, ⟨1, 11⟩, ⟨1, 12⟩, ⟨1, 13⟩, ⟨1, 14⟩, ⟨1, 15⟩, ⟨1, 16⟩, ⟨1, 17⟩, ⟨1, 18⟩, ⟨1, 19⟩, ⟨1, 20⟩]
  else none

/-- Mirrors `Drone::set_beakon`: requires a collected Teleport unit and Manhattan
distance at least 50 from every existing beacon; on success consumes the unit,
appends `R` to the path and records the position.  `none` models `false` (no
change). -/
def Drone.set_beakon (d : Drone) (l : Level) : Option (Drone × Level) :=
  if (decide (0 < get_or l.collected Bonus.TELEPORT 0)
      && l.beakons.all (fun b => decide (50 ≤ (b.x - d.pos.x).natAbs + (b.y - d.pos.y).natAbs)))
  then
    some ({ d with path := d.path ++ "R" },
          { l with collected := update l.collected Bonus.TELEPORT (-1),
                   beakons := l.beakons ++ [d.pos] })
  else none

/-- Initial hand list of `Drone::new`. -/
def hands0 : List Point := [⟨0, 0⟩, ⟨1, -1⟩, ⟨1, 0⟩, ⟨1, 1⟩]

/-- The new-hand rule of `Drone::activate_hand`:
`Point::new(1, self.hands.last().unwrap().y + 1)` appended to the hand list. -/
def extend_hand (hs : List Point) : List Point :=
  hs ++ [⟨1, (hs.getLastD ⟨0, 0⟩).y + 1⟩]

/-- The exact set of offsets for which `hand_blocker` has a match arm. -/
def hand_domain : List Point :=
  [⟨0, 0⟩, ⟨1, -1⟩, ⟨1, 0⟩, ⟨1, 1⟩, ⟨1, 2⟩, ⟨1, 3⟩, ⟨1, 4⟩, ⟨1, 5⟩, ⟨1, 6⟩, ⟨1, 7⟩, ⟨1, 8⟩,
   ⟨1, 9⟩, ⟨1, 10⟩, ⟨1, 11⟩, ⟨1, 12⟩, ⟨1, 13⟩, ⟨1, 14⟩, ⟨1, 15⟩, ⟨1, 16⟩, ⟨1, 17⟩, ⟨1, 18⟩,
   ⟨1, 19⟩]

theorem hand_blocker_not_domain (p : Point) (h : p ∉ hand_domain) : hand_blocker p = none := by
  have h1 : ¬ p = (⟨0, 0⟩ : Point) := fun e => h (by rw [e]; decide)
  have h2 : ¬ p = (⟨1, -1⟩ : Point) := fun e => h (by rw [e]; decide)
  have h3 : ¬ p = (⟨1, 0⟩ : Point) := fun e => h (by rw [e]; decide)
  have h4 : ¬ p = (⟨1, 1⟩ : Point) := fun e => h (by rw [e]; decide)
  have h5 : ¬ p = (⟨1, 2⟩ : Point) := fun e => h (by rw [e]; decide)
  have h6 : ¬ p = (⟨1, 3⟩ : Point) := fun e => h (by rw [e]; decide)
  have h7 : ¬ p = (⟨1, 4⟩ : Point) := fun e => h (by rw [e]; decide)
  have h8 : ¬ p = (⟨1, 5⟩ : Point) := fun e => h (by rw [e]; decide)
  have h9 : ¬ p = (⟨1, 6⟩ : Point) := fun e => h (by rw [e]; decide)
  have h10 : ¬ p = (⟨1, 7⟩ : Point) := fun e => h (by rw [e]; decide)
  have h11 : ¬ p = (⟨1, 8⟩ : Point) := fun e => h (by rw [e]; decide)
  have h12 : ¬ p = (⟨1, 9⟩ : Point) := fun e => h (by rw [e]; decide)
  have h13 : ¬ p = (⟨1, 10⟩ : Point) := fun e => h (by rw [e]; decide)
  have h14 : ¬ p = (⟨1, 11⟩ : Point) := fun e => h (by rw [e]; decide)
  have h15 : ¬ p = (⟨1, 12⟩ : Point) := fun e => h (by rw [e]; decide)
  have h16 : ¬ p = (⟨1, 13⟩ : Point) := fun e => h (by rw [e]; decide)
  have h17 : ¬ p = (⟨1, 14⟩ : Point) := fun e => h (by rw [e]; decide)
  have h18 : ¬ p = (⟨1, 15⟩ : Point) := fun e => h (by rw [e]; decide)
  have h19 : ¬ p = (⟨1, 16⟩ : Point) := fun e => h (by rw [e]; decide)
  have h20 : ¬ p = (⟨1, 17⟩ : Point) := fun e => h (by rw [e]; decide)
  have h21 : ¬ p = (⟨1, 18⟩ : Point) := fun e => h (by rw [e]; decide)
  have h22 : ¬ p = (⟨1, 19⟩ : Point) := fun e => h (by rw [e]; decide)
  unfold hand_blocker
  rw [if_neg h1, if_neg h2, if_neg h3, if_neg h4, if_neg h5, if_neg h6, if_neg h7, if_neg h8, if_neg h9, if_neg h10, if_neg h11, if_neg h12, if_neg h13, if_neg h14, if_neg h15, if_neg h16, if_neg h17, if_neg h18, if_neg h19, if_neg h20, if_neg h21, if_neg h22]

theorem hand_blocker_domain (p : Point) : (hand_blocker p).isSome = true ↔ p ∈ hand_domain := by
  constructor
  · intro hs
    by_contra hmem
    rw [hand_blocker_not_domain p hmem] at hs
    simp at hs
  · intro hmem
    have h : ∀ q ∈ hand_domain, (hand_blocker q).isSome = true := by decide
    exact h p hmem

/-- Shape of the blocker set for hand offset `(1, n)`, as the table actually
realises it: `n + 3` cells for even `n` and `n + 2` cells for odd `n`, the
cells at x-offset 0 spanning `y ∈ [1, n/2 + 1]` and the cells at x-offset 1
spanning `y ∈ [⌈n/2⌉, n + 1]` (the two bands overlap around the midpoint). -/
def blocker_rule (n : Nat) (bs : List Point) : Bool :=
  decide (bs.length = if n % 2 = 0 then n + 3 else n + 2) &&
  bs.all (fun p =>
    decide ((p.x = 0 ∧ 1 ≤ p.y ∧ p.y ≤ ((n / 2 + 1 : Nat) : Int)) ∨
            (p.x = 1 ∧ (((n + 1) / 2 : Nat) : Int) ≤ p.y ∧ p.y ≤ ((n + 1 : Nat) : Int)))) &&
  (List.range (n / 2 + 2)).all (fun y =>
    decide (y = 0) || bs.any (fun p => decide (p = ⟨0, (y : Int)⟩))) &&
  (List.range (n + 2)).all (fun y =>
    decide (y < (n + 1) / 2) || bs.any (fun p => decide (p = ⟨1, (y : Int)⟩)))

/-- C6 counterexample: the claim predicts exactly `n` cells in the blocker set
for hand offset `(1, n)`, but for `n = 2` the table holds 5 cells, not 2. -/
theorem c6_counterexample :
    (hand_blocker ⟨1, 2⟩).map List.length = some 5 ∧ (5 : Nat) ≠ 2 := by
  decide

/-- C6 (amended): for every `2 ≤ n ≤ 19` the blocker set for hand offset
`(1, n)` contains `n + 3` cells when `n` is even and `n + 2` cells when `n` is
odd; its x-offset-0 cells span `y ∈ [1, n/2 + 1]` and its x-offset-1 cells span
`y ∈ [⌈n/2⌉, n + 1]`, the two bands overlapping around the midpoint rather
than partitioning. -/
theorem c6_amended : ∀ n : Nat, n < 20 → 2 ≤ n →
    (hand_blocker ⟨1, (n : Int)⟩).map (blocker_rule n) = some true := by
  decide

theorem c6_amended_witness :
    (4 : Nat) < 20 ∧ (2 : Nat) ≤ 4 ∧
      (hand_blocker ⟨1, ((4 : Nat) : Int)⟩).map (blocker_rule 4) = some true :=
  ⟨by decide, by decide, c6_amended 4 (by decide) (by decide)⟩

/-- C10 counterexample: after 17 hand extensions (more than the claimed 16) the
newest hand is `(1, 18)`, and every hand still has a defined blocker set, so
the next reachability test does not panic. -/
theorem c10_counterexample :
    (extend_hand^[17] hands0).getLastD ⟨0, 0⟩ = ⟨1, 18⟩
    ∧ (extend_hand^[17] hands0).all (fun h => (hand_blocker h).isSome) = true
    ∧ 16 < 17 := by
  decide

/-- C10 (amended): `hand_blocker` returns a blocker set exactly for the offsets
`(0,0)`, `(1,-1)`, `(1,0)`, `(1,1)` and `(1,n)` with `2 ≤ n ≤ 19`, and reaches
the `unimplemented!()` branch for every other offset; since `activate_hand`
always appends offset `(1, last-hand.y + 1)`, up to 18 extensions every hand
keeps a defined blocker set, while the 19th extension appends `(1, 20)`, whose
blocker lookup panics at the next reachability test. -/
theorem c10_amended :
    (∀ p : Point, (hand_blocker p).isSome = true ↔ p ∈ hand_domain)
    ∧ (∀ k : Nat, k ≤ 18 →
        (extend_hand^[k] hands0).all (fun h => (hand_blocker h).isSome) = true)
    ∧ (extend_hand^[19] hands0).getLastD ⟨0, 0⟩ = ⟨1, 20⟩
    ∧ hand_blocker ⟨1, 20⟩ = none := by
  refine ⟨hand_blocker_domain, ?_, by decide, by decide⟩
  decide

theorem c10_amended_witness :
    ((hand_blocker ⟨1, 5⟩).isSome = true ↔ ⟨1, 5⟩ ∈ hand_domain)
    ∧ (extend_hand^[18] hands0).all (fun h => (hand_blocker h).isSome) = true :=
  ⟨c10_amended.1 ⟨1, 5⟩, c10_amended.2.1 18 (by decide)⟩

/-- C5: `wrap_cell` succeeds exactly when the (in-bounds) cell is `EMPTY`, and
then marks it `WRAPPED`, decrements the global empty counter and the per-zone
counter of an assigned zone; `drill_cell` succeeds exactly when the cell is
`BLOCKED`, and then marks it `WRAPPED` leaving every counter untouched. -/
theorem c5_wrap_drill (l : Level) (x y : Int) (hv : l.valid x y = true) :
    ((l.wrap_cell x y).isSome = true ↔
      l.grid.getD (l.grid_idx x y) Cell.BLOCKED = Cell.EMPTY)
    ∧ (∀ l2, l.wrap_cell x y = some l2 →
        l2 = { l with
          grid := l.grid.set (l.grid_idx x y) Cell.WRAPPED
          empty := l.empty - 1
          zones_empty :=
            if l.zones.getD (l.grid_idx x y) 255 < 255 then
              l.zones_empty.set (l.zones.getD (l.grid_idx x y) 255)
                (l.zones_empty.getD (l.zones.getD (l.grid_idx x y) 255) 0 - 1)
            else l.zones_empty })
    ∧ ((l.drill_cell x y).isSome = true ↔
        l.grid.getD (l.grid_idx x y) Cell.BLOCKED = Cell.BLOCKED)
    ∧ (∀ l2, l.drill_cell x y = some l2 →
        l2 = { l with grid := l.grid.set (l.grid_idx x y) Cell.WRAPPED }) := by
  unfold Level.wrap_cell Level.drill_cell
  simp only [hv, if_true]
  refine ⟨?_, ?_, ?_, ?_⟩ <;> split_ifs <;> simp_all

/-- Minimal one-cell concrete level used by several witnesses. -/
def lvl1 : Level :=
  { grid := [Cell.EMPTY], weights := [0], zones := [0], width := 1, height := 1,
    empty := 1, zones_empty := [1], spawns := [], beakons := [], bonuses := [],
    collected := [] }

theorem c5_wrap_drill_witness :
    lvl1.valid 0 0 = true ∧
      ((lvl1.wrap_cell 0 0).isSome = true ↔
        lvl1.grid.getD (lvl1.grid_idx 0 0) Cell.BLOCKED = Cell.EMPTY) :=
  ⟨by decide, (c5_wrap_drill lvl1 0 0 (by decide)).1⟩

/-- C8: placing a teleport beacon succeeds exactly when a Teleport unit is
collected and the drone's position has Manhattan distance at least 50 from
every existing beacon; on success one unit is consumed, `R` is appended to the
path and the position is recorded as a new beacon; otherwise nothing changes. -/
theorem c8_set_beakon (d : Drone) (l : Level) :
    ((Drone.set_beakon d l).isSome = true ↔
      (0 < get_or l.collected Bonus.TELEPORT 0 ∧
        ∀ b ∈ l.beakons, 50 ≤ (b.x - d.pos.x).natAbs + (b.y - d.pos.y).natAbs))
    ∧ (∀ d2 l2, Drone.set_beakon d l = some (d2, l2) →
        d2 = { d with path := d.path ++ "R" } ∧
        l2 = { l with collected := update l.collected Bonus.TELEPORT (-1),
                      beakons := l.beakons ++ [d.pos] }) := by
  unfold Drone.set_beakon
  split_ifs with h <;>
    simp_all [Bool.and_eq_true, List.all_eq_true, decide_eq_true_eq]

/-- Concrete drone for the C8 witness. -/
def d8 : Drone := Drone.new ⟨3, 4⟩

/-- Concrete level for the C8 witness: one Teleport unit collected, no beacon. -/
def l8 : Level := { lvl1 with collected := [(Bonus.TELEPORT, 2)] }

theorem c8_set_beakon_witness :
    ({ d8 with path := d8.path ++ "R" } : Drone) = { d8 with path := d8.path ++ "R" } ∧
    ({ l8 with collected := update l8.collected Bonus.TELEPORT (-1),
               beakons := l8.beakons ++ [d8.pos] } : Level)
      = { l8 with collected := update l8.collected Bonus.TELEPORT (-1),
                  beakons := l8.beakons ++ [d8.pos] } :=
  (c8_set_beakon d8 l8).2 _ _ (by decide)

/-- Mirrors `fn is_reaching`: every cell of the hand's blocker set must be
walkable from `fromp`; an undefined blocker set is the `unimplemented!()`
panic. -/
def is_reaching (l : Level) (fromp : Point) (hand : Point) : Except String Bool :=
  match hand_blocker hand with
  | none => Except.error "hand_blocker: unimplemented offset"
  | some blockers =>
      Except.ok (blockers.all (fun p => l.walkable (fromp.x + p.x) (fromp.y + p.y)))

/-- Mirrors `fn would_wrap`, iterating the drone's hands in order and
accumulating reachable `EMPTY` hand targets into `wrapped`. -/
def would_wrap (l : Level) (hands : List Point) (pos : Point) (wrapped : List Point) :
    Except String (List Point) :=
  match hands with
  | [] => Except.ok wrapped
  | hand :: rest =>
    match is_reaching l pos hand with
    | Except.error e => Except.error e
    | Except.ok false => would_wrap l rest pos wrapped
    | Except.ok true =>
      match l.get_cell (pos.x + hand.x) (pos.y + hand.y) with
      | Except.error e => Except.error e
      | Except.ok c =>
        if c = Cell.EMPTY then
          would_wrap l rest pos (insertP wrapped ⟨pos.x + hand.x, pos.y + hand.y⟩)
        else would_wrap l rest pos wrapped

/-- Validity test of `step_move` for a target cell: already drilled, or drill
active and in bounds, or normally walkable. -/
def move_ok (l : Level) (drill : Bool) (drilled : List Point) (tp : Point) : Prop :=
  tp ∈ drilled ∨ (drill = true ∧ l.valid tp.x tp.y = true) ∨ l.walkable tp.x tp.y = true

instance (l : Level) (drill : Bool) (drilled : List Point) (tp : Point) :
    Decidable (move_ok l drill drilled tp) := by
  unfold move_ok; infer_instance

/-- Mirrors `fn step_move`. -/
def step_move (l : Level) (hands : List Point) (fromp : Point) (dx dy : Int)
    (wheels drill : Bool) (drilled : List Point) :
    Except String (Option (Point × List Point × List Point)) :=
  let tp : Point := ⟨fromp.x + dx, fromp.y + dy⟩
  if move_ok l drill drilled tp then
    match would_wrap l hands tp [] with
    | Except.error e => Except.error e
    | Except.ok w1 =>
      let nd1 : List Point :=
        if drill = true ∧ tp ∉ drilled ∧ l.walkable tp.x tp.y = false then [tp] else []
      if wheels then
        let tp2 : Point := ⟨tp.x + dx, tp.y + dy⟩
        if move_ok l drill drilled tp2 then
          match would_wrap l hands tp2 w1 with
          | Except.error e => Except.error e
          | Except.ok w2 =>
            let nd2 : List Point :=
              if drill = true ∧ tp2 ∉ drilled ∧ l.valid tp2.x tp2.y = true
                  ∧ l.walkable tp2.x tp2.y = false
              then nd1 ++ [tp2] else nd1
            Except.ok (some (tp2, w2, nd2))
        else Except.ok (some (tp, w1, nd1))
      else Except.ok (some (tp, w1, nd1))
  else Except.ok none

/-- Mirrors `fn step_jump`: jump to the beacon at the given index when placed. -/
def step_jump (l : Level) (hands : List Point) (beakon_idx : Nat) :
    Except String (Option (Point × List Point × List Point)) :=
  match l.beakons.get? beakon_idx with
  | some tp =>
    match would_wrap l hands tp [] with
    | Except.error e => Except.error e
    | Except.ok w => Except.ok (some (tp, w, []))
  | none => Except.ok none

/-- Mirrors `fn step`. -/
def step (l : Level) (hands : List Point) (fromp : Point) (action : Action)
    (wheels drill : Bool) (drilled : List Point) :
    Except String (Option (Point × List Point × List Point)) :=
  match action with
  | Action.LEFT => step_move l hands fromp (-1) 0 wheels drill drilled
  | Action.RIGHT => step_move l hands fromp 1 0 wheels drill drilled
  | Action.UP => step_move l hands fromp 0 1 wheels drill drilled
  | Action.DOWN => step_move l hands fromp 0 (-1) wheels drill drilled
  | Action.JUMP0 => step_jump l hands 0
  | Action.JUMP1 => step_jump l hands 1
  | Action.JUMP2 => step_jump l hands 2

/-- Direction vector of the four directional actions, as dispatched by `step`. -/
def dir_delta : Action → Option (Int × Int)
  | Action.LEFT => some (-1, 0)
  | Action.RIGHT => some (1, 0)
  | Action.UP => some (0, 1)
  | Action.DOWN => some (0, -1)
  | _ => none

theorem hand_blocker_self (h : Point) (bs : List Point) (e : hand_blocker h = some bs) :
    h ∈ bs := by
  have hd : h ∈ hand_domain := (hand_blocker_domain h).1 (by rw [e]; rfl)
  have hall : ∀ q ∈ hand_domain,
      Option.all (fun bs2 => decide (q ∈ bs2)) (hand_blocker q) = true := by decide
  have h2 := hall h hd
  rw [e] at h2
  simpa using h2

theorem walkable_valid (l : Level) (x y : Int) (h : l.walkable x y = true) :
    l.valid x y = true := by
  unfold Level.walkable at h
  exact ((Bool.and_eq_true _ _).mp h).1

theorem would_wrap_ok (l : Level) (hands : List Point) (pos : Point) (acc : List Point)
    (hd : ∀ h ∈ hands, (hand_blocker h).isSome = true) :
    ∃ ws, would_wrap l hands pos acc = Except.ok ws := by
  induction hands generalizing acc with
  | nil => exact ⟨acc, rfl⟩
  | cons hand rest ih =>
    have hh := hd hand (by simp)
    obtain ⟨bs, hbs⟩ : ∃ bs, hand_blocker hand = some bs := by
      cases e : hand_blocker hand with
      | none => rw [e] at hh; simp at hh
      | some bs => exact ⟨bs, rfl⟩
    have hrest : ∀ h ∈ rest, (hand_blocker h).isSome = true :=
      fun h hm => hd h (by simp [hm])
    unfold would_wrap is_reaching
    rw [hbs]
    dsimp only
    by_cases hr : (bs.all fun p => l.walkable (pos.x + p.x) (pos.y + p.y)) = true
    · rw [hr]
      have hw : l.walkable (pos.x + hand.x) (pos.y + hand.y) = true := by
        have h3 := (List.all_eq_true.mp hr) hand (hand_blocker_self hand bs hbs)
        simpa using h3
      have hv : l.valid (pos.x + hand.x) (pos.y + hand.y) = true :=
        walkable_valid l _ _ hw
      unfold Level.get_cell
      rw [hv]
      rw [if_pos rfl]
      dsimp only
      by_cases hc : l.grid.getD (l.grid_idx (pos.x + hand.x) (pos.y + hand.y)) Cell.BLOCKED
          = Cell.EMPTY
      · rw [if_pos hc]
        exact ih _ hrest
      · rw [if_neg hc]
        exact ih _ hrest
    · rw [Bool.eq_false_iff.mpr hr]
      exact ih _ hrest

theorem step_move_some (l : Level) (hands : List Point) (fromp : Point) (dx dy : Int)
    (wheels drill : Bool) (drilled : List Point)
    (hd : ∀ h ∈ hands, (hand_blocker h).isSome = true) :
    ((∃ r, step_move l hands fromp dx dy wheels drill drilled = Except.ok (some r)) ↔
      move_ok l drill drilled ⟨fromp.x + dx, fromp.y + dy⟩)
    ∧ (¬ move_ok l drill drilled ⟨fromp.x + dx, fromp.y + dy⟩ →
        step_move l hands fromp dx dy wheels drill drilled = Except.ok none) := by
  unfold step_move
  by_cases hc : move_ok l drill drilled ⟨fromp.x + dx, fromp.y + dy⟩
  · rw [if_pos hc]
    obtain ⟨w1, hw1⟩ := would_wrap_ok l hands ⟨fromp.x + dx, fromp.y + dy⟩ [] hd
    rw [hw1]
    refine ⟨⟨fun _ => hc, fun _ => ?_⟩, fun hn => absurd hc hn⟩
    cases wheels with
    | false => exact ⟨_, rfl⟩
    | true =>
      dsimp only
      rw [if_pos rfl]
      by_cases hc2 : move_ok l drill drilled
          ⟨fromp.x + dx + dx, fromp.y + dy + dy⟩
      · rw [if_pos hc2]
        obtain ⟨w2, hw2⟩ := would_wrap_ok l hands ⟨fromp.x + dx + dx, fromp.y + dy + dy⟩ w1 hd
        rw [hw2]
        exact ⟨_, rfl⟩
      · rw [if_neg hc2]
        exact ⟨_, rfl⟩
  · rw [if_neg hc]
    refine ⟨⟨fun hr => ?_, fun h => absurd h hc⟩, fun _ => rfl⟩
    obtain ⟨r, hr⟩ := hr
    exact absurd hr (by simp)

theorem step_dir_eq (l : Level) (hands : List Point) (fromp : Point) (a : Action)
    (dx dy : Int) (wheels drill : Bool) (drilled : List Point)
    (hdir : dir_delta a = some (dx, dy)) :
    step l hands fromp a wheels drill drilled
      = step_move l hands fromp dx dy wheels drill drilled := by
  cases a <;> simp only [dir_delta] at hdir <;> first
    | (injection hdir with h2; injection h2 with h3 h4; subst h3; subst h4; rfl)
    | exact absurd hdir (by simp)

/-- C2: for a directional action, `step` produces a destination exactly when
the single-step target is already drilled, or drill is active and the target
is in bounds, or the target is walkable; in particular with drill inactive and
the target neither drilled nor walkable, `step` returns no destination. -/
theorem c2_step_validity (l : Level) (d : Drone) (fromp : Point) (a : Action)
    (dx dy : Int) (wheels drill : Bool) (drilled : List Point)
    (hdir : dir_delta a = some (dx, dy))
    (hd : ∀ h ∈ d.hands, (hand_blocker h).isSome = true) :
    ((∃ r, step l d.hands fromp a wheels drill drilled = Except.ok (some r)) ↔
      move_ok l drill drilled ⟨fromp.x + dx, fromp.y + dy⟩)
    ∧ (drill = false → (⟨fromp.x + dx, fromp.y + dy⟩ : Point) ∉ drilled →
        l.walkable (fromp.x + dx) (fromp.y + dy) = false →
        step l d.hands fromp a wheels drill drilled = Except.ok none) := by
  rw [step_dir_eq l d.hands fromp a dx dy wheels drill drilled hdir]
  obtain ⟨h1, h2⟩ := step_move_some l d.hands fromp dx dy wheels drill drilled hd
  refine ⟨h1, fun hdr hmem hwk => h2 ?_⟩
  intro hmo
  rcases hmo with h | ⟨h, _⟩ | h
  · exact hmem h
  · rw [hdr] at h; exact Bool.false_ne_true h
  · rw [hwk] at h; exact Bool.false_ne_true h

/-- Two-cell corridor level used by the C2 witness. -/
def lvl2 : Level :=
  { grid := [Cell.EMPTY, Cell.EMPTY], weights := [0, 0], zones := [0, 0], width := 2,
    height := 1, empty := 2, zones_empty := [2], spawns := [], beakons := [], bonuses := [],
    collected := [] }

theorem c2_step_validity_witness :
    ((∃ r, step lvl2 (Drone.new ⟨0, 0⟩).hands ⟨0, 0⟩ Action.RIGHT false false []
        = Except.ok (some r)) ↔
      move_ok lvl2 false [] ⟨0 + 1, 0 + 0⟩) :=
  (c2_step_validity lvl2 (Drone.new ⟨0, 0⟩) ⟨0, 0⟩ Action.RIGHT 1 0 false false []
    (by decide) (by decide)).1


/-- C3: with wheels active, a successful directional step advances two cells
exactly when both the intermediate and the final cell independently pass the
validity test; when the second cell fails the test the drone advances exactly
one cell; and the newly-wrapped set is computed at the intermediate position
and, when advancing further, accumulated again at the final position. -/
theorem c3_wheels_step (l : Level) (d : Drone) (fromp : Point) (a : Action)
    (dx dy : Int) (drill : Bool) (drilled : List Point)
    (hdir : dir_delta a = some (dx, dy))
    (hd : ∀ h ∈ d.hands, (hand_blocker h).isSome = true)
    (h1 : move_ok l drill drilled ⟨fromp.x + dx, fromp.y + dy⟩) :
    (move_ok l drill drilled ⟨fromp.x + dx + dx, fromp.y + dy + dy⟩ →
      ∃ w1 w2 nd,
        would_wrap l d.hands ⟨fromp.x + dx, fromp.y + dy⟩ [] = Except.ok w1 ∧
        would_wrap l d.hands ⟨fromp.x + dx + dx, fromp.y + dy + dy⟩ w1 = Except.ok w2 ∧
        step l d.hands fromp a true drill drilled
          = Except.ok (some (⟨fromp.x + dx + dx, fromp.y + dy + dy⟩, w2, nd)))
    ∧ (¬ move_ok l drill drilled ⟨fromp.x + dx + dx, fromp.y + dy + dy⟩ →
      ∃ w1 nd,
        would_wrap l d.hands ⟨fromp.x + dx, fromp.y + dy⟩ [] = Except.ok w1 ∧
        step l d.hands fromp a true drill drilled
          = Except.ok (some (⟨fromp.x + dx, fromp.y + dy⟩, w1, nd)))
    ∧ (∀ p w nd, step l d.hands fromp a true drill drilled = Except.ok (some (p, w, nd)) →
        (p = ⟨fromp.x + dx + dx, fromp.y + dy + dy⟩
          ↔ move_ok l drill drilled ⟨fromp.x + dx + dx, fromp.y + dy + dy⟩)) := by
  have hne : (⟨fromp.x + dx, fromp.y + dy⟩ : Point) ≠ ⟨fromp.x + dx + dx, fromp.y + dy + dy⟩ := by
    cases a <;> simp only [dir_delta] at hdir <;> first
      | (injection hdir with h2; injection h2 with h3 h4; subst h3; subst h4;
         intro hE; injection hE with hx hy; omega)
      | exact absurd hdir (by simp)
  rw [step_dir_eq l d.hands fromp a dx dy true drill drilled hdir]
  unfold step_move
  rw [if_pos h1]
  obtain ⟨w1, hw1⟩ := would_wrap_ok l d.hands ⟨fromp.x + dx, fromp.y + dy⟩ [] hd
  rw [hw1]
  dsimp only
  rw [if_pos rfl]
  by_cases hc2 : move_ok l drill drilled ⟨fromp.x + dx + dx, fromp.y + dy + dy⟩
  · rw [if_pos hc2]
    obtain ⟨w2, hw2⟩ := would_wrap_ok l d.hands ⟨fromp.x + dx + dx, fromp.y + dy + dy⟩ w1 hd
    rw [hw2]
    refine ⟨fun _ => ⟨w1, w2, _, rfl, hw2, rfl⟩, fun hn => absurd hc2 hn, ?_⟩
    intro p w nd heq
    simp only [Except.ok.injEq, Option.some.injEq, Prod.mk.injEq] at heq
    rw [← heq.1]
    simp [hc2]
  · rw [if_neg hc2]
    refine ⟨fun h2 => absurd h2 hc2, fun _ => ⟨w1, _, rfl, rfl⟩, ?_⟩
    intro p w nd heq
    simp only [Except.ok.injEq, Option.some.injEq, Prod.mk.injEq] at heq
    constructor
    · intro hp
      exact absurd (heq.1 ▸ hp) hne
    · intro hmo
      exact absurd hmo hc2

/-- Three-cell corridor level used by the C3 witness. -/
def lvl3 : Level :=
  { grid := [Cell.EMPTY, Cell.EMPTY, Cell.EMPTY], weights := [0, 0, 0], zones := [0, 0, 0],
    width := 3, height := 1, empty := 3, zones_empty := [3], spawns := [], beakons := [],
    bonuses := [], collected := [] }

theorem c3_wheels_step_witness :
    move_ok lvl3 false [] ⟨0 + 1 + 1, 0 + 0 + 0⟩ ∧
    (∃ w1 w2 nd,
      would_wrap lvl3 (Drone.new ⟨0, 0⟩).hands ⟨0 + 1, 0 + 0⟩ [] = Except.ok w1 ∧
      would_wrap lvl3 (Drone.new ⟨0, 0⟩).hands ⟨0 + 1 + 1, 0 + 0 + 0⟩ w1 = Except.ok w2 ∧
      step lvl3 (Drone.new ⟨0, 0⟩).hands ⟨0, 0⟩ Action.RIGHT true false []
        = Except.ok (some (⟨0 + 1 + 1, 0 + 0 + 0⟩, w2, nd))) :=
  ⟨by decide,
   (c3_wheels_step lvl3 (Drone.new ⟨0, 0⟩) ⟨0, 0⟩ Action.RIGHT 1 0 false []
      (by decide) (by decide) (by decide)).1 (by decide)⟩

/-- Mirrors the parser's free `fn grid_idx`. -/
def grid_idx (x y width : Int) : Nat :=
  (x + y * width).toNat

/-- Mirrors the parser's `fn weights`: for every cell (row-major), the number
of its eight neighbours that are `BLOCKED`. -/
def weights (grid : List Cell) (width height : Int) : List Nat :=
  (List.range height.toNat).flatMap (fun yn =>
    (List.range width.toNat).map (fun xn =>
      (([((0 : Int), (1 : Int)), (0, -1), (-1, 0), (1, 0), (1, 1), (-1, -1), (-1, 1),
         (1, -1)]).filter (fun d =>
        decide (0 ≤ (xn : Int) + d.1) && decide ((xn : Int) + d.1 < width) &&
        decide (0 ≤ (yn : Int) + d.2) && decide ((yn : Int) + d.2 < height) &&
        decide (grid.getD (grid_idx ((xn : Int) + d.1) ((yn : Int) + d.2) width)
          Cell.BLOCKED = Cell.BLOCKED))).length))

/-- Seed-selection loop of the parser's `fn zones`: draw candidate points from
`stream` — the abstraction of the `Pcg32` generator seeded with 42, whose
draws satisfy `0 ≤ x < width` and `0 ≤ y < height` — until `zones_count`
distinct `EMPTY` cells are queued, each tagged with `queue.len() as u8`. -/
def seed_loop (stream : Nat → Point) (zones_count : Nat) (grid : List Cell) (width : Int) :
    Nat → Nat → List (Point × Nat) → Option (List (Point × Nat))
  | 0, _, queue => if queue.length < zones_count then none else some queue
  | fuel + 1, i, queue =>
    if queue.length < zones_count then
      let p := stream i
      if grid.getD (grid_idx p.x p.y width) Cell.BLOCKED = Cell.EMPTY
          ∧ ∀ pz ∈ queue, pz.1 ≠ p then
        seed_loop stream zones_count grid width fuel (i + 1) (queue ++ [(p, queue.length % 256)])
      else seed_loop stream zones_count grid width fuel (i + 1) queue
    else some queue

/-- Flood-fill loop of the parser's `fn zones`
(`while let Some((point, zone)) = queue.pop_front()`). -/
def flood_loop (grid : List Cell) (width height : Int) :
    Nat → List (Point × Nat) → List Nat → List Nat → Option (List Nat × List Nat)
  | 0, queue, zs, ze => if queue = [] then some (zs, ze) else none
  | fuel + 1, queue, zs, ze =>
    match queue with
    | [] => some (zs, ze)
    | (p, zone) :: rest =>
      let idx := grid_idx p.x p.y width
      if zs.getD idx 255 = 255 ∧ grid.getD idx Cell.BLOCKED = Cell.EMPTY then
        flood_loop grid width height fuel
          (rest
            ++ (if p.y + 1 < height then [((⟨p.x, p.y + 1⟩ : Point), zone)] else [])
            ++ (if 0 < p.y then [((⟨p.x, p.y - 1⟩ : Point), zone)] else [])
            ++ (if p.x + 1 < width then [((⟨p.x + 1, p.y⟩ : Point), zone)] else [])
            ++ (if 0 < p.x then [((⟨p.x - 1, p.y⟩ : Point), zone)] else []))
          (zs.set idx zone) (ze.set zone (ze.getD zone 0 + 1))
      else flood_loop grid width height fuel rest zs ze

/-- Mirrors the parser's `fn zones`: seed selection followed by multi-source
4-connected flood fill over the `EMPTY` cells. -/
def zones (zones_count : Nat) (grid : List Cell) (width height : Int)
    (stream : Nat → Point) (fuel1 fuel2 : Nat) : Option (List Nat × List Nat) :=
  match seed_loop stream zones_count grid width fuel1 0 [] with
  | none => none
  | some queue =>
    flood_loop grid width height fuel2 queue
      (List.replicate (width * height).toNat 255) (List.replicate zones_count 0)

/-- Row scan of the parser's `build_level`: walk `x` from `0` to `width - 1`
carrying the parity cell, pushing cells and counting `EMPTY` ones. -/
def build_row (walls : List Point) (y : Int) :
    Nat → Int → Cell → List Cell → Nat → (List Cell × Nat × Cell)
  | 0, _, last_cell, acc, cnt => (acc, cnt, last_cell)
  | n + 1, x, last_cell, acc, cnt =>
    let lc := if (⟨x, y⟩ : Point) ∈ walls then
        (if last_cell = Cell.EMPTY then Cell.BLOCKED else Cell.EMPTY)
      else last_cell
    build_row walls y n (x + 1) lc (acc ++ [lc]) (cnt + if lc = Cell.EMPTY then 1 else 0)

/-- Row iteration of the parser's `build_level`, with the end-of-row
`assert_eq!` modelled as `none`. -/
def build_rows (walls : List Point) (width : Int) :
    Nat → Int → List Cell → Nat → Option (List Cell × Nat)
  | 0, _, acc, cnt => some (acc, cnt)
  | n + 1, y, acc, cnt =>
    match build_row walls y width.toNat 0 Cell.BLOCKED acc cnt with
    | (acc2, cnt2, last_cell) =>
      if ((⟨width, y⟩ : Point) ∈ walls) ↔ (Cell.EMPTY = last_cell) then
        build_rows walls width n (y + 1) acc2 cnt2
      else none

/-- Mirrors the parser's `build_level`: bounds from the wall set
(`height = max y + 1`, `width = max x`), the row parity scan counting empty
cells, then weights and zones; `none` models the `unwrap`/`assert` panics and
fuel exhaustion. -/
def build_level (walls : List Point) (zones_count : Nat) (stream : Nat → Point)
    (fuel1 fuel2 : Nat) : Option Level :=
  match walls with
  | [] => none
  | w0 :: wrest =>
    let height := wrest.foldl (fun m p => max m p.y) w0.y + 1
    let width := wrest.foldl (fun m p => max m p.x) w0.x
    match build_rows (w0 :: wrest) width height.toNat 0 [] 0 with
    | none => none
    | some (grid, empty) =>
      match zones zones_count grid width height stream fuel1 fuel2 with
      | none => none
      | some (zs, ze) =>
        some { grid := grid, weights := weights grid width height, zones := zs,
               width := width, height := height, empty := empty, zones_empty := ze,
               spawns := [], beakons := [], bonuses := [], collected := [] }

/-- Number of `EMPTY` cells of a grid. -/
def count_empty (grid : List Cell) : Nat :=
  grid.countP (fun c => decide (c = Cell.EMPTY))

/-- Level states reachable from level construction through any sequence of
`wrap_cell` and `drill_cell` calls. -/
inductive Reach : Level → Prop
  | built (walls : List Point) (zones_count : Nat) (stream : Nat → Point)
      (fuel1 fuel2 : Nat) (l : Level) :
      build_level walls zones_count stream fuel1 fuel2 = some l → Reach l
  | wrap (l : Level) (x y : Int) (l2 : Level) :
      Reach l → l.wrap_cell x y = some l2 → Reach l2
  | drill (l : Level) (x y : Int) (l2 : Level) :
      Reach l → l.drill_cell x y = some l2 → Reach l2

theorem count_empty_set_wrap (g : List Cell) (idx : Nat)
    (h : g.getD idx Cell.BLOCKED = Cell.EMPTY) :
    count_empty (g.set idx Cell.WRAPPED) + 1 = count_empty g := by
  induction g generalizing idx with
  | nil => simp [List.getD] at h
  | cons a t ih =>
    cases idx with
    | zero =>
      simp only [List.getD_cons_zero] at h
      subst h
      simp [count_empty, List.countP_cons]
    | succ n =>
      have h2 := ih n (by simpa using h)
      simp only [count_empty, List.set, List.countP_cons] at h2 ⊢
      omega

theorem count_empty_set_drill (g : List Cell) (idx : Nat)
    (h : g.getD idx Cell.BLOCKED = Cell.BLOCKED) :
    count_empty (g.set idx Cell.WRAPPED) = count_empty g := by
  induction g generalizing idx with
  | nil => simp
  | cons a t ih =>
    cases idx with
    | zero =>
      simp only [List.getD_cons_zero] at h
      subst h
      simp [count_empty, List.countP_cons]
    | succ n =>
      have h2 := ih n (by simpa using h)
      simp only [count_empty, List.set, List.countP_cons] at h2 ⊢
      omega

theorem getD_set_self {α : Type} (g : List α) (idx : Nat) (v d : α) (h : idx < g.length) :
    (g.set idx v).getD idx d = v := by
  induction g generalizing idx with
  | nil => simp at h
  | cons a t ih =>
    cases idx with
    | zero => rfl
    | succ n => exact ih n (by simpa using h)

theorem wrap_cell_some (l : Level) (x y : Int) (l2 : Level)
    (h : l.wrap_cell x y = some l2) :
    l.valid x y = true
    ∧ l.grid.getD (l.grid_idx x y) Cell.BLOCKED = Cell.EMPTY
    ∧ l2 = { l with
        grid := l.grid.set (l.grid_idx x y) Cell.WRAPPED
        empty := l.empty - 1
        zones_empty :=
          if l.zones.getD (l.grid_idx x y) 255 < 255 then
            l.zones_empty.set (l.zones.getD (l.grid_idx x y) 255)
              (l.zones_empty.getD (l.zones.getD (l.grid_idx x y) 255) 0 - 1)
          else l.zones_empty } := by
  simp only [Level.wrap_cell] at h
  split_ifs at h with h1 h2 h3
  · refine ⟨h1, h2, ?_⟩
    rw [if_pos h3]
    injection h with h4
    exact h4.symm
  · refine ⟨h1, h2, ?_⟩
    rw [if_neg h3]
    injection h with h4
    exact h4.symm

theorem drill_cell_some (l : Level) (x y : Int) (l2 : Level)
    (h : l.drill_cell x y = some l2) :
    l.valid x y = true
    ∧ l.grid.getD (l.grid_idx x y) Cell.BLOCKED = Cell.BLOCKED
    ∧ l2 = { l with grid := l.grid.set (l.grid_idx x y) Cell.WRAPPED } := by
  simp only [Level.drill_cell] at h
  split_ifs at h with h1 h2
  · injection h with h3
    exact ⟨h1, h2, h3.symm⟩

theorem build_row_spec (walls : List Point) (y : Int) :
    ∀ n (x : Int) lc acc cnt, cnt = count_empty acc →
      (build_row walls y n x lc acc cnt).2.1 = count_empty (build_row walls y n x lc acc cnt).1 := by
  intro n
  induction n with
  | zero => intro x lc acc cnt h; simpa [build_row] using h
  | succ n ih =>
    intro x lc acc cnt h
    unfold build_row
    apply ih
    subst h
    by_cases hlc : (if (⟨x, y⟩ : Point) ∈ walls then
        (if lc = Cell.EMPTY then Cell.BLOCKED else Cell.EMPTY) else lc) = Cell.EMPTY <;>
      simp [count_empty, List.countP_append, List.countP_cons, hlc]

theorem build_rows_spec (walls : List Point) (width : Int) :
    ∀ n (y : Int) acc cnt g e, cnt = count_empty acc →
      build_rows walls width n y acc cnt = some (g, e) → e = count_empty g := by
  intro n
  induction n with
  | zero =>
    intro y acc cnt g e h hb
    simp only [build_rows] at hb
    injection hb with hb2
    injection hb2 with hg he
    subst hg; subst he; exact h
  | succ n ih =>
    intro y acc cnt g e h hb
    unfold build_rows at hb
    rcases hr : build_row walls y width.toNat 0 Cell.BLOCKED acc cnt with ⟨acc2, cnt2, lastc⟩
    rw [hr] at hb
    dsimp only at hb
    split_ifs at hb with hcond
    · have hc2 : cnt2 = count_empty acc2 := by
        have h3 := build_row_spec walls y width.toNat 0 Cell.BLOCKED acc cnt h
        rw [hr] at h3
        exact h3
      exact ih (y + 1) acc2 cnt2 g e hc2 hb

theorem build_level_spec (walls : List Point) (zones_count : Nat) (stream : Nat → Point)
    (fuel1 fuel2 : Nat) (l : Level) (h : build_level walls zones_count stream fuel1 fuel2 = some l) :
    l.empty = count_empty l.grid := by
  rcases walls with _ | ⟨w0, wrest⟩
  · exact Option.noConfusion h
  · unfold build_level at h
    dsimp only at h
    rcases hb : build_rows (w0 :: wrest)
        (wrest.foldl (fun m p => max m p.x) w0.x)
        ((wrest.foldl (fun m p => max m p.y) w0.y + 1)).toNat 0 [] 0 with _ | ⟨g, e⟩
    · rw [hb] at h
      exact Option.noConfusion h
    · rw [hb] at h
      dsimp only at h
      rcases hz : zones zones_count g (wrest.foldl (fun m p => max m p.x) w0.x)
          (wrest.foldl (fun m p => max m p.y) w0.y + 1) stream fuel1 fuel2 with _ | ⟨zs, ze⟩
      · rw [hz] at h
        exact Option.noConfusion h
      · rw [hz] at h
        dsimp only at h
        injection h with h2
        subst h2
        have h3 := build_rows_spec (w0 :: wrest) _ _ 0 [] 0 g e rfl hb
        exact h3

/-- C1: every level reachable from construction through `wrap_cell` and
`drill_cell` calls keeps `empty = number of EMPTY cells`; `wrap_cell`
decrements the global counter by exactly one (rewriting the per-zone counter
exactly when the cell's zone is assigned) atomically with the EMPTY→WRAPPED
transition, and `drill_cell` changes neither counter. -/
theorem c1_empty_invariant :
    (∀ l, Reach l → l.empty = count_empty l.grid)
    ∧ (∀ (l : Level) (x y : Int) (l2 : Level), Reach l → l.wrap_cell x y = some l2 →
        l2.empty + 1 = l.empty
        ∧ l.grid.getD (l.grid_idx x y) Cell.BLOCKED = Cell.EMPTY
        ∧ l2.grid.getD (l.grid_idx x y) Cell.BLOCKED = Cell.WRAPPED
        ∧ l2.zones_empty = (if l.zones.getD (l.grid_idx x y) 255 < 255
            then l.zones_empty.set (l.zones.getD (l.grid_idx x y) 255)
              (l.zones_empty.getD (l.zones.getD (l.grid_idx x y) 255) 0 - 1)
            else l.zones_empty))
    ∧ (∀ (l : Level) (x y : Int) (l2 : Level), l.drill_cell x y = some l2 →
        l2.empty = l.empty ∧ l2.zones_empty = l.zones_empty) := by
  have hInv : ∀ l, Reach l → l.empty = count_empty l.grid := by
    intro l h
    induction h with
    | built walls zc stream f1 f2 l hb => exact build_level_spec walls zc stream f1 f2 l hb
    | wrap l x y l2 hr hw ih =>
      obtain ⟨hv, he, hl2⟩ := wrap_cell_some l x y l2 hw
      subst hl2
      have hc := count_empty_set_wrap l.grid (l.grid_idx x y) he
      show l.empty - 1 = count_empty (l.grid.set (l.grid_idx x y) Cell.WRAPPED)
      omega
    | drill l x y l2 hr hd ih =>
      obtain ⟨hv, he, hl2⟩ := drill_cell_some l x y l2 hd
      subst hl2
      have hc := count_empty_set_drill l.grid (l.grid_idx x y) he
      show l.empty = count_empty (l.grid.set (l.grid_idx x y) Cell.WRAPPED)
      omega
  refine ⟨hInv, ?_, ?_⟩
  · intro l x y l2 hr hw
    obtain ⟨hv, he, hl2⟩ := wrap_cell_some l x y l2 hw
    have hc := count_empty_set_wrap l.grid (l.grid_idx x y) he
    have hlen : l.grid_idx x y < l.grid.length := by
      by_contra hge
      rw [List.getD_eq_default] at he
      · exact absurd he (by simp)
      · omega
    have hinv := hInv l hr
    subst hl2
    have hemp : count_empty l.grid = count_empty (l.grid.set (l.grid_idx x y) Cell.WRAPPED) + 1 :=
      hc.symm
    refine ⟨?_, he, ?_, rfl⟩
    · show l.empty - 1 + 1 = l.empty
      omega
    · show (l.grid.set (l.grid_idx x y) Cell.WRAPPED).getD (l.grid_idx x y) Cell.BLOCKED
        = Cell.WRAPPED
      exact getD_set_self l.grid (l.grid_idx x y) Cell.WRAPPED Cell.BLOCKED hlen
  · intro l x y l2 hd
    obtain ⟨hv, he, hl2⟩ := drill_cell_some l x y l2 hd
    subst hl2
    exact ⟨rfl, rfl⟩

/-- Wall set of a one-cell level (contour `(0,0) (1,0) (1,1) (0,1)`). -/
def c1walls : List Point := [⟨1, 0⟩, ⟨0, 0⟩]

theorem c1_empty_invariant_witness :
    build_level c1walls 1 (fun _ => ⟨0, 0⟩) 5 5 = some lvl1
    ∧ lvl1.empty = count_empty lvl1.grid :=
  ⟨by decide,
   c1_empty_invariant.1 lvl1 (Reach.built c1walls 1 (fun _ => ⟨0, 0⟩) 5 5 lvl1 (by decide))⟩

/-- Search node, mirroring `struct Plan`. -/
structure PlanRec where
  plan : List Action
  pos : Point
  wheels : Nat
  drill : Nat
  drilled : List Point
  deriving DecidableEq, Repr

/-- State of the `explore_impl` loop: the global visited set, the FIFO
frontier, the best candidate so far and the current depth cap. -/
structure ExpState where
  seen : List Point
  queue : List PlanRec
  best : Option (List Action × Point × ℚ)
  maxLen : Nat
  deriving DecidableEq, Repr

/-- Action order of the expansion loop in `explore_impl`. -/
def actions_order : List Action :=
  [Action.LEFT, Action.RIGHT, Action.UP, Action.DOWN, Action.JUMP0, Action.JUMP1, Action.JUMP2]

/-- Frontier expansion of one dequeued node over `actions_order`
(the `for action in ...` loop of `explore_impl`): skip positions already in
the global visited set, otherwise mark them visited and enqueue the extended
plan with decayed wheels/drill counters and the accumulated drilled set. -/
def explore_expand (l : Level) (hands : List Point) (node : PlanRec) :
    List Action → ExpState → Except String ExpState
  | [], st => Except.ok st
  | a :: rest, st =>
    match step l hands node.pos a (decide (0 < node.wheels)) (decide (0 < node.drill))
        node.drilled with
    | Except.error e => Except.error e
    | Except.ok none => explore_expand l hands node rest st
    | Except.ok (some (pos2, _, nd)) =>
      if pos2 ∈ st.seen then explore_expand l hands node rest st
      else
        explore_expand l hands node rest
          { st with
            seen := st.seen ++ [pos2]
            queue := st.queue ++ [{ plan := node.plan ++ [a], pos := pos2,
                                    wheels := if 1 < node.wheels then node.wheels - 1 else 0,
                                    drill := if 1 < node.drill then node.drill - 1 else 0,
                                    drilled := nd.foldl insertP node.drilled }] }

/-- Body of one `explore_impl` iteration after the cap handling: score the
dequeued node as `rate / plan length` (0 for the start node), update the
running best on strict improvement (first positive score when no best yet),
then expand the frontier. -/
def explore_body (l : Level) (d : Drone) (rate : Level → Drone → Point → Except String ℚ)
    (node : PlanRec) (st : ExpState) : Except String ExpState :=
  match (if node.plan = [] then Except.ok (0 : ℚ)
         else match rate l d node.pos with
           | Except.error e => Except.error e
           | Except.ok r => Except.ok (r / (node.plan.length : ℚ))) with
  | Except.error e => Except.error e
  | Except.ok score =>
    explore_expand l d.hands node actions_order
      { st with best :=
          match st.best with
          | some b => if b.2.2 < score then some (node.plan, node.pos, score) else some b
          | none => if 0 < score then some (node.plan, node.pos, score) else none }

/-- Mirrors the `loop` of `explore_impl` with explicit fuel (`none` = fuel
exhausted, which the Rust loop never is): when the dequeued plan has reached
the cap, stop with the best if one is recorded, else extend the cap by 5 and
continue with this very node. -/
def explore_loop (l : Level) (d : Drone) (rate : Level → Drone → Point → Except String ℚ) :
    Nat → ExpState → Option (Except String (Option (List Action × Point × ℚ)))
  | 0, _ => none
  | fuel + 1, st =>
    match st.queue with
    | [] => some (Except.ok st.best)
    | node :: rest =>
      if node.plan.length ≥ st.maxLen ∧ st.best.isSome = true then
        some (Except.ok st.best)
      else
        match explore_body l d rate node
            { st with queue := rest
                      maxLen := if node.plan.length ≥ st.maxLen then st.maxLen + 5
                                else st.maxLen } with
        | Except.error e => some (Except.error e)
        | Except.ok st2 => explore_loop l d rate fuel st2

/-- Mirrors `explore_impl`: breadth-expanding search from the drone's state,
initial depth cap 5. -/
def explore_impl (l : Level) (d : Drone) (rate : Level → Drone → Point → Except String ℚ)
    (fuel : Nat) : Option (Except String (Option (List Action × Point × ℚ))) :=
  explore_loop l d rate fuel
    { seen := []
      queue := [{ plan := [], pos := d.pos, wheels := d.wheels, drill := d.drill, drilled := [] }]
      best := none, maxLen := 5 }

/-- Eleven-cell corridor level used by the C4 counterexample. -/
def lvl11 : Level :=
  { grid := List.replicate 11 Cell.EMPTY, weights := List.replicate 11 0,
    zones := List.replicate 11 0, width := 11, height := 1, empty := 11,
    zones_empty := [11], spawns := [], beakons := [], bonuses := [], collected := [] }

/-- Scoring function with a small positive value at `(5,0)` (reachable in
five steps) and a large one at `(7,0)`. -/
def rate57 : Level → Drone → Point → Except String ℚ :=
  fun _ _ p =>
    Except.ok (if p.x = 5 ∧ p.y = 0 then 1 else if p.x = 7 ∧ p.y = 0 then 100 else 0)

/-- Scoring function that rates every position zero. -/
def rate0 : Level → Drone → Point → Except String ℚ :=
  fun _ _ _ => Except.ok 0

/-- Plan application: positions visited when the actions are stepped one by
one without wheels, drill or drilled cells. -/
def apply_plan (l : Level) (hands : List Point) (p : Point) : List Action → Option Point
  | [] => some p
  | a :: rest =>
    match step l hands p a false false [] with
    | Except.ok (some (p2, _, _)) => apply_plan l hands p2 rest
    | _ => none


theorem explore_loop_step (l : Level) (d : Drone)
    (rate : Level → Drone → Point → Except String ℚ) (fuelBig fuel : Nat)
    (st st2 : ExpState) {node : PlanRec} {rest : List PlanRec}
    (hf : fuelBig = fuel + 1) (hq : st.queue = node :: rest)
    (hcond : ¬ (node.plan.length ≥ st.maxLen ∧ st.best.isSome = true))
    (hbody : explore_body l d rate node
        { st with queue := rest
                  maxLen := if node.plan.length ≥ st.maxLen then st.maxLen + 5 else st.maxLen }
        = Except.ok st2) :
    explore_loop l d rate fuelBig st = explore_loop l d rate fuel st2 := by
  subst hf
  conv_lhs => rw [explore_loop]
  rw [hq]
  dsimp only
  rw [if_neg hcond, hbody]

theorem explore_loop_nil (l : Level) (d : Drone)
    (rate : Level → Drone → Point → Except String ℚ) (fuelBig fuel : Nat) (st : ExpState)
    (hf : fuelBig = fuel + 1) (hq : st.queue = []) :
    explore_loop l d rate fuelBig st = some (Except.ok st.best) := by
  subst hf
  conv_lhs => rw [explore_loop]
  rw [hq]

theorem explore_loop_break (l : Level) (d : Drone)
    (rate : Level → Drone → Point → Except String ℚ) (fuelBig fuel : Nat) (st : ExpState)
    {node : PlanRec} {rest : List PlanRec}
    (hf : fuelBig = fuel + 1) (hq : st.queue = node :: rest)
    (hcond : node.plan.length ≥ st.maxLen ∧ st.best.isSome = true) :
    explore_loop l d rate fuelBig st = some (Except.ok st.best) := by
  subst hf
  conv_lhs => rw [explore_loop]
  rw [hq]
  dsimp only
  rw [if_pos hcond]

/-- Intermediate state 0 of the zero-rate C4 evaluation run. -/
def c4z0 : ExpState :=
  { seen := [],
    queue := [{ plan := [], pos := { x := 0, y := 0 }, wheels := 0, drill := 0, drilled := [] }],
    best := none,
    maxLen := 5 }

/-- Intermediate state 1 of the zero-rate C4 evaluation run. -/
def c4z1 : ExpState :=
  { seen := [{ x := 1, y := 0 }],
    queue := [{ plan := [Icfp.Action.RIGHT], pos := { x := 1, y := 0 }, wheels := 0, drill := 0, drilled := [] }],
    best := none,
    maxLen := 5 }

/-- Intermediate state 2 of the zero-rate C4 evaluation run. -/
def c4z2 : ExpState :=
  { seen := [{ x := 1, y := 0 }, { x := 0, y := 0 }, { x := 2, y := 0 }],
    queue := [{ plan := [Icfp.Action.RIGHT, Icfp.Action.LEFT],
                pos := { x := 0, y := 0 },
                wheels := 0,
                drill := 0,
                drilled := [] },
              { plan := [Icfp.Action.RIGHT, Icfp.Action.RIGHT],
                pos := { x := 2, y := 0 },
                wheels := 0,
                drill := 0,
                drilled := [] }],
    best := none,
    maxLen := 5 }

/-- Intermediate state 3 of the zero-rate C4 evaluation run. -/
def c4z3 : ExpState :=
  { seen := [{ x := 1, y := 0 }, { x := 0, y := 0 }, { x := 2, y := 0 }],
    queue := [{ plan := [Icfp.Action.RIGHT, Icfp.Action.RIGHT],
                pos := { x := 2, y := 0 },
                wheels := 0,
                drill := 0,
                drilled := [] }],
    best := none,
    maxLen := 5 }

/-- Intermediate state 4 of the zero-rate C4 evaluation run. -/
def c4z4 : ExpState :=
  { seen := [{ x := 1, y := 0 }, { x := 0, y := 0 }, { x := 2, y := 0 }, { x := 3, y := 0 }],
    queue := [{ plan := [Icfp.Action.RIGHT, Icfp.Action.RIGHT, Icfp.Action.RIGHT],
                pos := { x := 3, y := 0 },
                wheels := 0,
                drill := 0,
                drilled := [] }],
    best := none,
    maxLen := 5 }

/-- Intermediate state 5 of the zero-rate C4 evaluation run. -/
def c4z5 : ExpState :=
  { seen := [{ x := 1, y := 0 }, { x := 0, y := 0 }, { x := 2, y := 0 }, { x := 3, y := 0 }, { x := 4, y := 0 }],
    queue := [{ plan := [Icfp.Action.RIGHT, Icfp.Action.RIGHT, Icfp.Action.RIGHT, Icfp.Action.RIGHT],
                pos := { x := 4, y := 0 },
                wheels := 0,
                drill := 0,
                drilled := [] }],
    best := none,
    maxLen := 5 }

/-- Intermediate state 6 of the zero-rate C4 evaluation run. -/
def c4z6 : ExpState :=
  { seen := [{ x := 1, y := 0 },
             { x := 0, y := 0 },
             { x := 2, y := 0 },
             { x := 3, y := 0 },
             { x := 4, y := 0 },
             { x := 5, y := 0 }],
    queue := [{ plan := [Icfp.Action.RIGHT, Icfp.Action.RIGHT, Icfp.Action.RIGHT, Icfp.Action.RIGHT, Icfp.Action.RIGHT],
                pos := { x := 5, y := 0 },
                wheels := 0,
                drill := 0,
                drilled := [] }],
    best := none,
    maxLen := 5 }

/-- Intermediate state 7 of the zero-rate C4 evaluation run. -/
def c4z7 : ExpState :=
  { seen := [{ x := 1, y := 0 },
             { x := 0, y := 0 },
             { x := 2, y := 0 },
             { x := 3, y := 0 },
             { x := 4, y := 0 },
             { x := 5, y := 0 },
             { x := 6, y := 0 }],
    queue := [{ plan := [Icfp.Action.RIGHT,
                         Icfp.Action.RIGHT,
                         Icfp.Action.RIGHT,
                         Icfp.Action.RIGHT,
                         Icfp.Action.RIGHT,
                         Icfp.Action.RIGHT],
                pos := { x := 6, y := 0 },
                wheels := 0,
                drill := 0,
                drilled := [] }],
    best := none,
    maxLen := 10 }

/-- Intermediate state 8 of the zero-rate C4 evaluation run. -/
def c4z8 : ExpState :=
  { seen := [{ x := 1, y := 0 },
             { x := 0, y := 0 },
             { x := 2, y := 0 },
             { x := 3, y := 0 },
             { x := 4, y := 0 },
             { x := 5, y := 0 },
             { x := 6, y := 0 },
             { x := 7, y := 0 }],
    queue := [{ plan := [Icfp.Action.RIGHT,
                         Icfp.Action.RIGHT,
                         Icfp.Action.RIGHT,
                         Icfp.Action.RIGHT,
                         Icfp.Action.RIGHT,
                         Icfp.Action.RIGHT,
                         Icfp.Action.RIGHT],
                pos := { x := 7, y := 0 },
                wheels := 0,
                drill := 0,
                drilled := [] }],
    best := none,
    maxLen := 10 }

/-- Intermediate state 9 of the zero-rate C4 evaluation run. -/
def c4z9 : ExpState :=
  { seen := [{ x := 1, y := 0 },
             { x := 0, y := 0 },
             { x := 2, y := 0 },
             { x := 3, y := 0 },
             { x := 4, y := 0 },
             { x := 5, y := 0 },
             { x := 6, y := 0 },
             { x := 7, y := 0 },
             { x := 8, y := 0 }],
    queue := [{ plan := [Icfp.Action.RIGHT,
                         Icfp.Action.RIGHT,
                         Icfp.Action.RIGHT,
                         Icfp.Action.RIGHT,
                         Icfp.Action.RIGHT,
                         Icfp.Action.RIGHT,
                         Icfp.Action.RIGHT,
                         Icfp.Action.RIGHT],
                pos := { x := 8, y := 0 },
                wheels := 0,
                drill := 0,
                drilled := [] }],
    best := none,
    maxLen := 10 }

/-- Intermediate state 10 of the zero-rate C4 evaluation run. -/
def c4z10 : ExpState :=
  { seen := [{ x := 1, y := 0 },
             { x := 0, y := 0 },
             { x := 2, y := 0 },
             { x := 3, y := 0 },
             { x := 4, y := 0 },
             { x := 5, y := 0 },
             { x := 6, y := 0 },
             { x := 7, y := 0 },
             { x := 8, y := 0 },
             { x := 9, y := 0 }],
    queue := [{ plan := [Icfp.Action.RIGHT,
                         Icfp.Action.RIGHT,
                         Icfp.Action.RIGHT,
                         Icfp.Action.RIGHT,
                         Icfp.Action.RIGHT,
                         Icfp.Action.RIGHT,
                         Icfp.Action.RIGHT,
                         Icfp.Action.RIGHT,
                         Icfp.Action.RIGHT],
                pos := { x := 9, y := 0 },
                wheels := 0,
                drill := 0,
                drilled := [] }],
    best := none,
    maxLen := 10 }

/-- Intermediate state 11 of the zero-rate C4 evaluation run. -/
def c4z11 : ExpState :=
  { seen := [{ x := 1, y := 0 },
             { x := 0, y := 0 },
             { x := 2, y := 0 },
             { x := 3, y := 0 },
             { x := 4, y := 0 },
             { x := 5, y := 0 },
             { x := 6, y := 0 },
             { x := 7, y := 0 },
             { x := 8, y := 0 },
             { x := 9, y := 0 },
             { x := 10, y := 0 }],
    queue := [{ plan := [Icfp.Action.RIGHT,
                         Icfp.Action.RIGHT,
                         Icfp.Action.RIGHT,
                         Icfp.Action.RIGHT,
                         Icfp.Action.RIGHT,
                         Icfp.Action.RIGHT,
                         Icfp.Action.RIGHT,
                         Icfp.Action.RIGHT,
                         Icfp.Action.RIGHT,
                         Icfp.Action.RIGHT],
                pos := { x := 10, y := 0 },
                wheels := 0,
                drill := 0,
                drilled := [] }],
    best := none,
    maxLen := 10 }

/-- Intermediate state 12 of the zero-rate C4 evaluation run. -/
def c4z12 : ExpState :=
  { seen := [{ x := 1, y := 0 },
             { x := 0, y := 0 },
             { x := 2, y := 0 },
             { x := 3, y := 0 },
             { x := 4, y := 0 },
             { x := 5, y := 0 },
             { x := 6, y := 0 },
             { x := 7, y := 0 },
             { x := 8, y := 0 },
             { x := 9, y := 0 },
             { x := 10, y := 0 }],
    queue := [],
    best := none,
    maxLen := 15 }

/-- Intermediate state 0 of the two-peak C4 evaluation run. -/
def c4r0 : ExpState :=
  { seen := [],
    queue := [{ plan := [], pos := { x := 0, y := 0 }, wheels := 0, drill := 0, drilled := [] }],
    best := none,
    maxLen := 5 }

/-- Intermediate state 1 of the two-peak C4 evaluation run. -/
def c4r1 : ExpState :=
  { seen := [{ x := 1, y := 0 }],
    queue := [{ plan := [Icfp.Action.RIGHT], pos := { x := 1, y := 0 }, wheels := 0, drill := 0, drilled := [] }],
    best := none,
    maxLen := 5 }

/-- Intermediate state 2 of the two-peak C4 evaluation run. -/
def c4r2 : ExpState :=
  { seen := [{ x := 1, y := 0 }, { x := 0, y := 0 }, { x := 2, y := 0 }],
    queue := [{ plan := [Icfp.Action.RIGHT, Icfp.Action.LEFT],
                pos := { x := 0, y := 0 },
                wheels := 0,
                drill := 0,
                drilled := [] },
              { plan := [Icfp.Action.RIGHT, Icfp.Action.RIGHT],
                pos := { x := 2, y := 0 },
                wheels := 0,
                drill := 0,
                drilled := [] }],
    best := none,
    maxLen := 5 }

/-- Intermediate state 3 of the two-peak C4 evaluation run. -/
def c4r3 : ExpState :=
  { seen := [{ x := 1, y := 0 }, { x := 0, y := 0 }, { x := 2, y := 0 }],
    queue := [{ plan := [Icfp.Action.RIGHT, Icfp.Action.RIGHT],
                pos := { x := 2, y := 0 },
                wheels := 0,
                drill := 0,
                drilled := [] }],
    best := none,
    maxLen := 5 }

/-- Intermediate state 4 of the two-peak C4 evaluation run. -/
def c4r4 : ExpState :=
  { seen := [{ x := 1, y := 0 }, { x := 0, y := 0 }, { x := 2, y := 0 }, { x := 3, y := 0 }],
    queue := [{ plan := [Icfp.Action.RIGHT, Icfp.Action.RIGHT, Icfp.Action.RIGHT],
                pos := { x := 3, y := 0 },
                wheels := 0,
                drill := 0,
                drilled := [] }],
    best := none,
    maxLen := 5 }

/-- Intermediate state 5 of the two-peak C4 evaluation run. -/
def c4r5 : ExpState :=
  { seen := [{ x := 1, y := 0 }, { x := 0, y := 0 }, { x := 2, y := 0 }, { x := 3, y := 0 }, { x := 4, y := 0 }],
    queue := [{ plan := [Icfp.Action.RIGHT, Icfp.Action.RIGHT, Icfp.Action.RIGHT, Icfp.Action.RIGHT],
                pos := { x := 4, y := 0 },
                wheels := 0,
                drill := 0,
                drilled := [] }],
    best := none,
    maxLen := 5 }

/-- Intermediate state 6 of the two-peak C4 evaluation run. -/
def c4r6 : ExpState :=
  { seen := [{ x := 1, y := 0 },
             { x := 0, y := 0 },
             { x := 2, y := 0 },
             { x := 3, y := 0 },
             { x := 4, y := 0 },
             { x := 5, y := 0 }],
    queue := [{ plan := [Icfp.Action.RIGHT, Icfp.Action.RIGHT, Icfp.Action.RIGHT, Icfp.Action.RIGHT, Icfp.Action.RIGHT],
                pos := { x := 5, y := 0 },
                wheels := 0,
                drill := 0,
                drilled := [] }],
    best := none,
    maxLen := 5 }

/-- Intermediate state 7 of the two-peak C4 evaluation run. -/
def c4r7 : ExpState :=
  { seen := [{ x := 1, y := 0 },
             { x := 0, y := 0 },
             { x := 2, y := 0 },
             { x := 3, y := 0 },
             { x := 4, y := 0 },
             { x := 5, y := 0 },
             { x := 6, y := 0 }],
    queue := [{ plan := [Icfp.Action.RIGHT,
                         Icfp.Action.RIGHT,
                         Icfp.Action.RIGHT,
                         Icfp.Action.RIGHT,
                         Icfp.Action.RIGHT,
                         Icfp.Action.RIGHT],
                pos := { x := 6, y := 0 },
                wheels := 0,
                drill := 0,
                drilled := [] }],
    best := some ([Icfp.Action.RIGHT, Icfp.Action.RIGHT, Icfp.Action.RIGHT, Icfp.Action.RIGHT, Icfp.Action.RIGHT],
             { x := 5, y := 0 },
             (1 : Rat)/5),
    maxLen := 10 }

/-- Intermediate state 8 of the two-peak C4 evaluation run. -/
def c4r8 : ExpState :=
  { seen := [{ x := 1, y := 0 },
             { x := 0, y := 0 },
             { x := 2, y := 0 },
             { x := 3, y := 0 },
             { x := 4, y := 0 },
             { x := 5, y := 0 },
             { x := 6, y := 0 },
             { x := 7, y := 0 }],
    queue := [{ plan := [Icfp.Action.RIGHT,
                         Icfp.Action.RIGHT,
                         Icfp.Action.RIGHT,
                         Icfp.Action.RIGHT,
                         Icfp.Action.RIGHT,
                         Icfp.Action.RIGHT,
                         Icfp.Action.RIGHT],
                pos := { x := 7, y := 0 },
                wheels := 0,
                drill := 0,
                drilled := [] }],
    best := some ([Icfp.Action.RIGHT, Icfp.Action.RIGHT, Icfp.Action.RIGHT, Icfp.Action.RIGHT, Icfp.Action.RIGHT],
             { x := 5, y := 0 },
             (1 : Rat)/5),
    maxLen := 10 }

/-- Intermediate state 9 of the two-peak C4 evaluation run. -/
def c4r9 : ExpState :=
  { seen := [{ x := 1, y := 0 },
             { x := 0, y := 0 },
             { x := 2, y := 0 },
             { x := 3, y := 0 },
             { x := 4, y := 0 },
             { x := 5, y := 0 },
             { x := 6, y := 0 },
             { x := 7, y := 0 },
             { x := 8, y := 0 }],
    queue := [{ plan := [Icfp.Action.RIGHT,
                         Icfp.Action.RIGHT,
                         Icfp.Action.RIGHT,
                         Icfp.Action.RIGHT,
                         Icfp.Action.RIGHT,
                         Icfp.Action.RIGHT,
                         Icfp.Action.RIGHT,
                         Icfp.Action.RIGHT],
                pos := { x := 8, y := 0 },
                wheels := 0,
                drill := 0,
                drilled := [] }],
    best := some ([Icfp.Action.RIGHT,
              Icfp.Action.RIGHT,
              Icfp.Action.RIGHT,
              Icfp.Action.RIGHT,
              Icfp.Action.RIGHT,
              Icfp.Action.RIGHT,
              Icfp.Action.RIGHT],
             { x := 7, y := 0 },
             (100 : Rat)/7),
    maxLen := 10 }

/-- Intermediate state 10 of the two-peak C4 evaluation run. -/
def c4r10 : ExpState :=
  { seen := [{ x := 1, y := 0 },
             { x := 0, y := 0 },
             { x := 2, y := 0 },
             { x := 3, y := 0 },
             { x := 4, y := 0 },
             { x := 5, y := 0 },
             { x := 6, y := 0 },
             { x := 7, y := 0 },
             { x := 8, y := 0 },
             { x := 9, y := 0 }],
    queue := [{ plan := [Icfp.Action.RIGHT,
                         Icfp.Action.RIGHT,
                         Icfp.Action.RIGHT,
                         Icfp.Action.RIGHT,
                         Icfp.Action.RIGHT,
                         Icfp.Action.RIGHT,
                         Icfp.Action.RIGHT,
                         Icfp.Action.RIGHT,
                         Icfp.Action.RIGHT],
                pos := { x := 9, y := 0 },
                wheels := 0,
                drill := 0,
                drilled := [] }],
    best := some ([Icfp.Action.RIGHT,
              Icfp.Action.RIGHT,
              Icfp.Action.RIGHT,
              Icfp.Action.RIGHT,
              Icfp.Action.RIGHT,
              Icfp.Action.RIGHT,
              Icfp.Action.RIGHT],
             { x := 7, y := 0 },
             (100 : Rat)/7),
    maxLen := 10 }

/-- Intermediate state 11 of the two-peak C4 evaluation run. -/
def c4r11 : ExpState :=
  { seen := [{ x := 1, y := 0 },
             { x := 0, y := 0 },
             { x := 2, y := 0 },
             { x := 3, y := 0 },
             { x := 4, y := 0 },
             { x := 5, y := 0 },
             { x := 6, y := 0 },
             { x := 7, y := 0 },
             { x := 8, y := 0 },
             { x := 9, y := 0 },
             { x := 10, y := 0 }],
    queue := [{ plan := [Icfp.Action.RIGHT,
                         Icfp.Action.RIGHT,
                         Icfp.Action.RIGHT,
                         Icfp.Action.RIGHT,
                         Icfp.Action.RIGHT,
                         Icfp.Action.RIGHT,
                         Icfp.Action.RIGHT,
                         Icfp.Action.RIGHT,
                         Icfp.Action.RIGHT,
                         Icfp.Action.RIGHT],
                pos := { x := 10, y := 0 },
                wheels := 0,
                drill := 0,
                drilled := [] }],
    best := some ([Icfp.Action.RIGHT,
              Icfp.Action.RIGHT,
              Icfp.Action.RIGHT,
              Icfp.Action.RIGHT,
              Icfp.Action.RIGHT,
              Icfp.Action.RIGHT,
              Icfp.Action.RIGHT],
             { x := 7, y := 0 },
             (100 : Rat)/7),
    maxLen := 10 }

set_option maxRecDepth 400000 in
set_option maxHeartbeats 1600000 in
theorem c4_zero_eval :
    explore_impl lvl11 (Drone.new ⟨0, 0⟩) rate0 60 = some (Except.ok none) := by
  show explore_loop lvl11 (Drone.new ⟨0, 0⟩) rate0 60 c4z0 = some (Except.ok none)
  rw [explore_loop_step lvl11 (Drone.new ⟨0, 0⟩) rate0 60 59 c4z0 c4z1 rfl rfl (by decide) (of_decide_eq_true (by with_unfolding_all rfl))]
  rw [explore_loop_step lvl11 (Drone.new ⟨0, 0⟩) rate0 59 58 c4z1 c4z2 rfl rfl (by decide) (of_decide_eq_true (by with_unfolding_all rfl))]
  rw [explore_loop_step lvl11 (Drone.new ⟨0, 0⟩) rate0 58 57 c4z2 c4z3 rfl rfl (by decide) (of_decide_eq_true (by with_unfolding_all rfl))]
  rw [explore_loop_step lvl11 (Drone.new ⟨0, 0⟩) rate0 57 56 c4z3 c4z4 rfl rfl (by decide) (of_decide_eq_true (by with_unfolding_all rfl))]
  rw [explore_loop_step lvl11 (Drone.new ⟨0, 0⟩) rate0 56 55 c4z4 c4z5 rfl rfl (by decide) (of_decide_eq_true (by with_unfolding_all rfl))]
  rw [explore_loop_step lvl11 (Drone.new ⟨0, 0⟩) rate0 55 54 c4z5 c4z6 rfl rfl (by decide) (of_decide_eq_true (by with_unfolding_all rfl))]
  rw [explore_loop_step lvl11 (Drone.new ⟨0, 0⟩) rate0 54 53 c4z6 c4z7 rfl rfl (by decide) (of_decide_eq_true (by with_unfolding_all rfl))]
  rw [explore_loop_step lvl11 (Drone.new ⟨0, 0⟩) rate0 53 52 c4z7 c4z8 rfl rfl (by decide) (of_decide_eq_true (by with_unfolding_all rfl))]
  rw [explore_loop_step lvl11 (Drone.new ⟨0, 0⟩) rate0 52 51 c4z8 c4z9 rfl rfl (by decide) (of_decide_eq_true (by with_unfolding_all rfl))]
  rw [explore_loop_step lvl11 (Drone.new ⟨0, 0⟩) rate0 51 50 c4z9 c4z10 rfl rfl (by decide) (of_decide_eq_true (by with_unfolding_all rfl))]
  rw [explore_loop_step lvl11 (Drone.new ⟨0, 0⟩) rate0 50 49 c4z10 c4z11 rfl rfl (by decide) (of_decide_eq_true (by with_unfolding_all rfl))]
  rw [explore_loop_step lvl11 (Drone.new ⟨0, 0⟩) rate0 49 48 c4z11 c4z12 rfl rfl (by decide) (of_decide_eq_true (by with_unfolding_all rfl))]
  exact explore_loop_nil lvl11 (Drone.new ⟨0, 0⟩) rate0 48 47 c4z12 rfl rfl

set_option maxRecDepth 400000 in
set_option maxHeartbeats 1600000 in
theorem c4_r57_eval :
    explore_impl lvl11 (Drone.new ⟨0, 0⟩) rate57 60
      = some (Except.ok (some (List.replicate 7 Action.RIGHT, ⟨7, 0⟩, 100 / 7))) := by
  show explore_loop lvl11 (Drone.new ⟨0, 0⟩) rate57 60 c4r0
    = some (Except.ok (some (List.replicate 7 Action.RIGHT, ⟨7, 0⟩, 100 / 7)))
  rw [explore_loop_step lvl11 (Drone.new ⟨0, 0⟩) rate57 60 59 c4r0 c4r1 rfl rfl (by decide) (of_decide_eq_true (by with_unfolding_all rfl))]
  rw [explore_loop_step lvl11 (Drone.new ⟨0, 0⟩) rate57 59 58 c4r1 c4r2 rfl rfl (by decide) (of_decide_eq_true (by with_unfolding_all rfl))]
  rw [explore_loop_step lvl11 (Drone.new ⟨0, 0⟩) rate57 58 57 c4r2 c4r3 rfl rfl (by decide) (of_decide_eq_true (by with_unfolding_all rfl))]
  rw [explore_loop_step lvl11 (Drone.new ⟨0, 0⟩) rate57 57 56 c4r3 c4r4 rfl rfl (by decide) (of_decide_eq_true (by with_unfolding_all rfl))]
  rw [explore_loop_step lvl11 (Drone.new ⟨0, 0⟩) rate57 56 55 c4r4 c4r5 rfl rfl (by decide) (of_decide_eq_true (by with_unfolding_all rfl))]
  rw [explore_loop_step lvl11 (Drone.new ⟨0, 0⟩) rate57 55 54 c4r5 c4r6 rfl rfl (by decide) (of_decide_eq_true (by with_unfolding_all rfl))]
  rw [explore_loop_step lvl11 (Drone.new ⟨0, 0⟩) rate57 54 53 c4r6 c4r7 rfl rfl (by decide) (of_decide_eq_true (by with_unfolding_all rfl))]
  rw [explore_loop_step lvl11 (Drone.new ⟨0, 0⟩) rate57 53 52 c4r7 c4r8 rfl rfl (by decide) (of_decide_eq_true (by with_unfolding_all rfl))]
  rw [explore_loop_step lvl11 (Drone.new ⟨0, 0⟩) rate57 52 51 c4r8 c4r9 rfl rfl (by decide) (of_decide_eq_true (by with_unfolding_all rfl))]
  rw [explore_loop_step lvl11 (Drone.new ⟨0, 0⟩) rate57 51 50 c4r9 c4r10 rfl rfl (by decide) (of_decide_eq_true (by with_unfolding_all rfl))]
  rw [explore_loop_step lvl11 (Drone.new ⟨0, 0⟩) rate57 50 49 c4r10 c4r11 rfl rfl (by decide) (of_decide_eq_true (by with_unfolding_all rfl))]
  rw [explore_loop_break lvl11 (Drone.new ⟨0, 0⟩) rate57 49 48 c4r11 rfl rfl (by decide)]
  exact of_decide_eq_true (by with_unfolding_all rfl)

/-- C4 counterexample: on an 11-cell corridor with a positive score at
`(5,0)` — reachable by a plan of length 5, inside the initial cap — the
search returns the length-7 plan to the higher-rated `(7,0)`, not a plan of
length at most 5; and with an all-zero scoring function the search returns
`none` as soon as the frontier empties instead of extending the cap. -/
theorem c4_counterexample :
    apply_plan lvl11 hands0 ⟨0, 0⟩ (List.replicate 5 Action.RIGHT) = some ⟨5, 0⟩
    ∧ rate57 lvl11 (Drone.new ⟨0, 0⟩) ⟨5, 0⟩ = Except.ok 1
    ∧ (0 : ℚ) < 1
    ∧ explore_impl lvl11 (Drone.new ⟨0, 0⟩) rate57 60
        = some (Except.ok (some (List.replicate 7 Action.RIGHT, ⟨7, 0⟩, 100 / 7)))
    ∧ (List.replicate 7 Action.RIGHT).length = 7
    ∧ ¬ (7 ≤ 5)
    ∧ explore_impl lvl11 (Drone.new ⟨0, 0⟩) rate0 60 = some (Except.ok none) := by
  exact ⟨by decide, of_decide_eq_true (by with_unfolding_all rfl), by norm_num, c4_r57_eval, by decide, by decide, c4_zero_eval⟩

theorem explore_expand_best (l : Level) (hands : List Point) (node : PlanRec) :
    ∀ as st st2, explore_expand l hands node as st = Except.ok st2 → st2.best = st.best := by
  intro as
  induction as with
  | nil =>
    intro st st2 h
    injection h with h2
    rw [← h2]
  | cons a rest ih =>
    intro st st2 h
    unfold explore_expand at h
    rcases hs : step l hands node.pos a (decide (0 < node.wheels)) (decide (0 < node.drill))
        node.drilled with e | o
    · rw [hs] at h
      exact Except.noConfusion h
    · rw [hs] at h
      rcases o with _ | ⟨p2, nw, nd⟩
      · exact ih st st2 h
      · dsimp only at h
        by_cases hseen : p2 ∈ st.seen
        · rw [if_pos hseen] at h
          exact ih st st2 h
        · rw [if_neg hseen] at h
          exact (ih _ st2 h).trans rfl

theorem explore_body_zero (l : Level) (d : Drone)
    (rate : Level → Drone → Point → Except String ℚ)
    (hr : ∀ l2 d2 p, rate l2 d2 p = Except.ok 0)
    (node : PlanRec) (st st2 : ExpState) (hb : st.best = none)
    (h : explore_body l d rate node st = Except.ok st2) : st2.best = none := by
  unfold explore_body at h
  by_cases hp : node.plan = []
  · rw [if_pos hp] at h
    dsimp only at h
    rw [hb] at h
    rw [if_neg (lt_irrefl (0 : ℚ))] at h
    have h2 := explore_expand_best l d.hands node actions_order _ st2 h
    rw [h2]
  · rw [if_neg hp, hr l d node.pos] at h
    dsimp only at h
    rw [zero_div] at h
    rw [hb] at h
    rw [if_neg (lt_irrefl (0 : ℚ))] at h
    have h2 := explore_expand_best l d.hands node actions_order _ st2 h
    rw [h2]

/-- C4 (amended): the exploration search starts with depth cap 5; a dequeued
node whose plan length has reached the cap ends the search with the recorded
best when one exists and otherwise extends the cap by 5 and continues with
that node; an emptied frontier ends the search immediately with the current
best — it does not extend the cap — so with a scoring function that rates
every position zero, a terminating search returns `none`; a positive score
reachable within the initial cap guarantees a plan is found but not one of
length at most 5. -/
theorem c4_amended :
    (∀ (l : Level) (d : Drone) (rate : Level → Drone → Point → Except String ℚ) (fuel : Nat),
      explore_impl l d rate fuel = explore_loop l d rate fuel
        { seen := []
          queue := [{ plan := [], pos := d.pos, wheels := d.wheels, drill := d.drill,
                      drilled := [] }]
          best := none, maxLen := 5 })
    ∧ (∀ (l : Level) (d : Drone) (rate : Level → Drone → Point → Except String ℚ)
        (fuel : Nat) (st : ExpState), st.queue = [] →
        explore_loop l d rate (fuel + 1) st = some (Except.ok st.best))
    ∧ (∀ (l : Level) (d : Drone) (rate : Level → Drone → Point → Except String ℚ)
        (fuel : Nat) (st : ExpState) (node : PlanRec) (rest : List PlanRec),
        st.queue = node :: rest → st.maxLen ≤ node.plan.length → st.best.isSome = true →
        explore_loop l d rate (fuel + 1) st = some (Except.ok st.best))
    ∧ (∀ (l : Level) (d : Drone) (rate : Level → Drone → Point → Except String ℚ)
        (fuel : Nat) (st : ExpState) (node : PlanRec) (rest : List PlanRec) (st2 : ExpState),
        st.queue = node :: rest → st.maxLen ≤ node.plan.length → st.best = none →
        explore_body l d rate node { st with queue := rest, maxLen := st.maxLen + 5 }
          = Except.ok st2 →
        explore_loop l d rate (fuel + 1) st = explore_loop l d rate fuel st2)
    ∧ (∀ (l : Level) (d : Drone) (rate : Level → Drone → Point → Except String ℚ)
        (fuel : Nat) (st : ExpState) (r : Option (List Action × Point × ℚ)),
        st.best = none → (∀ l2 d2 p, rate l2 d2 p = Except.ok 0) →
        explore_loop l d rate fuel st = some (Except.ok r) → r = none) := by
  refine ⟨fun l d rate fuel => rfl, ?_, ?_, ?_, ?_⟩
  · intro l d rate fuel st hq
    unfold explore_loop
    rw [hq]
  · intro l d rate fuel st node rest hq hlen hsome
    unfold explore_loop
    rw [hq]
    dsimp only
    rw [if_pos ⟨hlen, hsome⟩]
  · intro l d rate fuel st node rest st2 hq hlen hbest hbody
    refine explore_loop_step l d rate (fuel + 1) fuel st st2 rfl hq
      (fun hc => by rw [hbest] at hc; exact Bool.noConfusion hc.2) ?_
    rw [if_pos hlen]
    exact hbody
  · intro l d rate fuel
    induction fuel with
    | zero =>
      intro st r hb hr h
      exact Option.noConfusion h
    | succ n ih =>
      intro st r hb hr h
      unfold explore_loop at h
      rcases hq : st.queue with _ | ⟨node, rest⟩
      · rw [hq] at h
        dsimp only at h
        injection h with h2
        injection h2 with h3
        rw [hb] at h3
        exact h3.symm
      · rw [hq] at h
        dsimp only at h
        rw [if_neg (fun hc => by rw [hb] at hc; exact Bool.noConfusion hc.2)] at h
        rcases hbody : explore_body l d rate node
            { st with queue := rest
                      maxLen := if node.plan.length ≥ st.maxLen then st.maxLen + 5
                                else st.maxLen } with e | st2
        · rw [hbody] at h
          injection h with h2
          exact Except.noConfusion h2
        · rw [hbody] at h
          exact ih st2 r
            (explore_body_zero l d rate hr node
              { st with queue := rest
                        maxLen := if node.plan.length ≥ st.maxLen then st.maxLen + 5
                                  else st.maxLen } st2 hb hbody) hr h

theorem c4_amended_witness :
    (none : Option (List Action × Point × ℚ)) = none
    ∧ explore_impl lvl11 (Drone.new ⟨0, 0⟩) rate0 60 = some (Except.ok none) :=
  ⟨c4_amended.2.2.2.2 lvl11 (Drone.new ⟨0, 0⟩) rate0 60
      { seen := []
        queue := [{ plan := [], pos := (Drone.new ⟨0, 0⟩).pos, wheels := (Drone.new ⟨0, 0⟩).wheels,
                    drill := (Drone.new ⟨0, 0⟩).drill, drilled := [] }]
        best := none, maxLen := 5 }
      none rfl (fun _ _ _ => rfl) c4_zero_eval,
   c4_zero_eval⟩

theorem getD_set_ne {α : Type} (g : List α) (i j : Nat) (v d : α) (h : i ≠ j) :
    (g.set i v).getD j d = g.getD j d := by
  induction g generalizing i j with
  | nil => rfl
  | cons a t ih =>
    cases i with
    | zero =>
      cases j with
      | zero => exact absurd rfl h
      | succ m => rfl
    | succ n =>
      cases j with
      | zero => rfl
      | succ m => exact ih n m (fun e => h (by rw [e]))

theorem count_set_self (g : List Nat) (i v d : Nat) (h : i < g.length)
    (hv : g.getD i d ≠ v) : (g.set i v).count v = g.count v + 1 := by
  induction g generalizing i with
  | nil => simp at h
  | cons a t ih =>
    cases i with
    | zero =>
      simp only [List.getD_cons_zero] at hv
      simp [List.count_cons, hv]
    | succ n =>
      have h2 := ih n (by simpa using h) (by simpa using hv)
      simp only [List.set, List.count_cons] at h2 ⊢
      omega

theorem count_set_other (g : List Nat) (i v z d : Nat) (hv1 : g.getD i d ≠ z)
    (hv2 : v ≠ z) : (g.set i v).count z = g.count z := by
  induction g generalizing i with
  | nil => rfl
  | cons a t ih =>
    cases i with
    | zero =>
      simp only [List.getD_cons_zero] at hv1
      simp [List.count_cons, hv1, hv2]
    | succ n =>
      have h2 := ih n (by simpa using hv1)
      simp only [List.set, List.count_cons] at h2 ⊢
      omega

/-- 4-neighbourhood relation of the flood fill's pushes. -/
def nbr (p q : Point) : Prop :=
  (q.x = p.x ∧ (q.y = p.y + 1 ∨ q.y = p.y - 1)) ∨ (q.y = p.y ∧ (q.x = p.x + 1 ∨ q.x = p.x - 1))

/-- In-bounds predicate for a `width × height` grid. -/
def inb (w h : Int) (p : Point) : Prop :=
  0 ≤ p.x ∧ p.x < w ∧ 0 ≤ p.y ∧ p.y < h

/-- The grid cell at `p` (row-major) is `EMPTY`. -/
def cellEmpty (grid : List Cell) (w : Int) (p : Point) : Prop :=
  grid.getD (grid_idx p.x p.y w) Cell.BLOCKED = Cell.EMPTY

/-- One step of 4-connectivity through in-bounds `EMPTY` cells. -/
def estep (grid : List Cell) (w h : Int) (p q : Point) : Prop :=
  nbr p q ∧ inb w h q ∧ cellEmpty grid w q

/-- 4-connected reachability through in-bounds `EMPTY` cells. -/
def reachE (grid : List Cell) (w h : Int) (s p : Point) : Prop :=
  Relation.ReflTransGen (estep grid w h) s p

theorem grid_idx_inj (w h : Int) (p q : Point) (hp : inb w h p) (hq : inb w h q)
    (h : grid_idx p.x p.y w = grid_idx q.x q.y w) : p = q := by
  obtain ⟨hx0, hxw, hy0, hyh⟩ := hp
  obtain ⟨hx0q, hxwq, hy0q, hyhq⟩ := hq
  unfold grid_idx at h
  have e1 : (0 : Int) ≤ p.x + p.y * w := by
    have := mul_nonneg hy0 (le_of_lt (lt_of_le_of_lt hx0 hxw))
    omega
  have e2 : (0 : Int) ≤ q.x + q.y * w := by
    have := mul_nonneg hy0q (le_of_lt (lt_of_le_of_lt hx0q hxwq))
    omega
  have h1 : p.x + p.y * w = q.x + q.y * w := by
    have := congrArg (fun n : Nat => (n : Int)) h
    simpa [Int.toNat_of_nonneg e1, Int.toNat_of_nonneg e2] using this
  have hy : p.y = q.y := by
    by_contra hne
    rcases lt_or_gt_of_ne hne with hlt | hgt
    · nlinarith
    · nlinarith
  have hx : p.x = q.x := by
    rw [hy] at h1
    omega
  cases p
  cases q
  simp_all

theorem flood_loop_mono (grid : List Cell) (w h : Int) :
    ∀ fuel q zs ze zs2 ze2,
      flood_loop grid w h fuel q zs ze = some (zs2, ze2) →
      ∀ i, zs.getD i 255 ≠ 255 → zs2.getD i 255 = zs.getD i 255 := by
  intro fuel
  induction fuel with
  | zero =>
    intro q zs ze zs2 ze2 hf i hi
    unfold flood_loop at hf
    split_ifs at hf
    injection hf with h2
    injection h2 with h3 h4
    rw [h3]
  | succ n ih =>
    intro q zs ze zs2 ze2 hf i hi
    unfold flood_loop at hf
    rcases q with _ | ⟨⟨p, zone⟩, rest⟩
    · injection hf with h2
      injection h2 with h3 h4
      rw [h3]
    · dsimp only at hf
      by_cases hcond : zs.getD (grid_idx p.x p.y w) 255 = 255 ∧
          grid.getD (grid_idx p.x p.y w) Cell.BLOCKED = Cell.EMPTY
      · rw [if_pos hcond] at hf
        have hne : grid_idx p.x p.y w ≠ i := by
          intro he
          rw [he] at hcond
          exact hi hcond.1
        have h2 := ih _ _ _ _ _ hf i (by rw [getD_set_ne _ _ _ _ _ hne]; exact hi)
        rw [h2, getD_set_ne _ _ _ _ _ hne]
      · rw [if_neg hcond] at hf
        exact ih _ _ _ _ _ hf i hi

theorem cellEmpty_lt (grid : List Cell) (w : Int) (p : Point) (he : cellEmpty grid w p) :
    grid_idx p.x p.y w < grid.length := by
  by_contra hge
  unfold cellEmpty at he
  rw [List.getD_eq_default] at he
  · exact absurd he (by simp)
  · omega

theorem mem_ite_singleton {α : Type} (c : Prop) [Decidable c] (x : α) (y : α)
    (h : y ∈ (if c then [x] else [])) : y = x := by
  split_ifs at h
  · simpa using h
  · simp at h

theorem flood_loop_processed (grid : List Cell) (w h : Int) :
    ∀ fuel q zs ze zs2 ze2,
      grid.length ≤ zs.length →
      (∀ pz ∈ q, pz.2 ≠ 255) →
      flood_loop grid w h fuel q zs ze = some (zs2, ze2) →
      ∀ pz ∈ q, cellEmpty grid w pz.1 →
        zs2.getD (grid_idx pz.1.x pz.1.y w) 255 ≠ 255 := by
  intro fuel
  induction fuel with
  | zero =>
    intro q zs ze zs2 ze2 hlen hzq hf pz hm he
    unfold flood_loop at hf
    split_ifs at hf with hq
    subst hq
    simp at hm
  | succ n ih =>
    intro q zs ze zs2 ze2 hlen hzq hf pz hm he
    unfold flood_loop at hf
    rcases q with _ | ⟨⟨p, zone⟩, rest⟩
    · simp at hm
    · dsimp only at hf
      rcases List.mem_cons.mp hm with hm | hm
      · rw [hm] at he ⊢
        dsimp only at he ⊢
        by_cases hcond : zs.getD (grid_idx p.x p.y w) 255 = 255 ∧
            grid.getD (grid_idx p.x p.y w) Cell.BLOCKED = Cell.EMPTY
        · rw [if_pos hcond] at hf
          have hlt : grid_idx p.x p.y w < zs.length :=
            lt_of_lt_of_le (cellEmpty_lt grid w p he) hlen
          have hzs1 : (zs.set (grid_idx p.x p.y w) zone).getD (grid_idx p.x p.y w) 255 = zone :=
            getD_set_self _ _ _ _ (by simpa using hlt)
          have hzne : zone ≠ 255 := hzq (p, zone) (by simp)
          have hmono := flood_loop_mono grid w h _ _ _ _ _ _ hf (grid_idx p.x p.y w)
            (by rw [hzs1]; exact hzne)
          rw [hmono, hzs1]
          exact hzne
        · rw [if_neg hcond] at hf
          have hne : zs.getD (grid_idx p.x p.y w) 255 ≠ 255 := fun h0 => hcond ⟨h0, he⟩
          have hmono := flood_loop_mono grid w h _ _ _ _ _ _ hf _ hne
          rw [hmono]
          exact hne
      · by_cases hcond : zs.getD (grid_idx p.x p.y w) 255 = 255 ∧
            grid.getD (grid_idx p.x p.y w) Cell.BLOCKED = Cell.EMPTY
        · rw [if_pos hcond] at hf
          refine ih _ _ _ _ _ (by simpa using hlen) ?_ hf pz ?_ he
          · intro pz2 hm2
            simp only [List.mem_append] at hm2
            rcases hm2 with ((((hm2 | hm2) | hm2) | hm2) | hm2)
            · exact hzq pz2 (by simp [hm2])
            · rw [mem_ite_singleton _ _ _ hm2]
              exact hzq (p, zone) (by simp)
            · rw [mem_ite_singleton _ _ _ hm2]
              exact hzq (p, zone) (by simp)
            · rw [mem_ite_singleton _ _ _ hm2]
              exact hzq (p, zone) (by simp)
            · rw [mem_ite_singleton _ _ _ hm2]
              exact hzq (p, zone) (by simp)
          · simp only [List.mem_append]
            exact Or.inl (Or.inl (Or.inl (Or.inl hm)))
        · rw [if_neg hcond] at hf
          exact ih _ _ _ _ _ hlen (fun pz2 hm2 => hzq pz2 (by simp [hm2])) hf pz hm he

theorem flood_loop_closure (grid : List Cell) (w h : Int) :
    ∀ fuel q zs ze zs2 ze2,
      grid.length ≤ zs.length →
      (∀ pz ∈ q, pz.2 ≠ 255) →
      (∀ pz ∈ q, inb w h pz.1) →
      flood_loop grid w h fuel q zs ze = some (zs2, ze2) →
      ∀ p, inb w h p → cellEmpty grid w p →
        zs.getD (grid_idx p.x p.y w) 255 = 255 →
        zs2.getD (grid_idx p.x p.y w) 255 ≠ 255 →
        ∀ r, nbr p r → inb w h r → cellEmpty grid w r →
          zs2.getD (grid_idx r.x r.y w) 255 ≠ 255 := by
  intro fuel
  induction fuel with
  | zero =>
    intro q zs ze zs2 ze2 hlen hzq hinb hf p hpinb hpe hund hlab r hnbr hrinb hre
    unfold flood_loop at hf
    split_ifs at hf with hq
    injection hf with h2
    injection h2 with h3 h4
    rw [← h3] at hlab
    exact absurd hund hlab
  | succ n ih =>
    intro q zs ze zs2 ze2 hlen hzq hinb hf p hpinb hpe hund hlab r hnbr hrinb hre
    unfold flood_loop at hf
    rcases q with _ | ⟨⟨hp, hzo⟩, rest⟩
    · injection hf with h2
      injection h2 with h3 h4
      rw [← h3] at hlab
      exact absurd hund hlab
    · dsimp only at hf
      by_cases hcond : zs.getD (grid_idx hp.x hp.y w) 255 = 255 ∧
          grid.getD (grid_idx hp.x hp.y w) Cell.BLOCKED = Cell.EMPTY
      · rw [if_pos hcond] at hf
        have hzo_ne : hzo ≠ 255 := hzq (hp, hzo) (by simp)
        have hpushzq : ∀ pz2 ∈ (rest
            ++ (if hp.y + 1 < h then [((⟨hp.x, hp.y + 1⟩ : Point), hzo)] else [])
            ++ (if 0 < hp.y then [((⟨hp.x, hp.y - 1⟩ : Point), hzo)] else [])
            ++ (if hp.x + 1 < w then [((⟨hp.x + 1, hp.y⟩ : Point), hzo)] else [])
            ++ (if 0 < hp.x then [((⟨hp.x - 1, hp.y⟩ : Point), hzo)] else [])),
            pz2.2 ≠ 255 := by
          intro pz2 hm2
          simp only [List.mem_append] at hm2
          rcases hm2 with ((((hm2 | hm2) | hm2) | hm2) | hm2)
          · exact hzq pz2 (by simp [hm2])
          · rw [mem_ite_singleton _ _ _ hm2]; exact hzo_ne
          · rw [mem_ite_singleton _ _ _ hm2]; exact hzo_ne
          · rw [mem_ite_singleton _ _ _ hm2]; exact hzo_ne
          · rw [mem_ite_singleton _ _ _ hm2]; exact hzo_ne
        have hpushinb : ∀ pz2 ∈ (rest
            ++ (if hp.y + 1 < h then [((⟨hp.x, hp.y + 1⟩ : Point), hzo)] else [])
            ++ (if 0 < hp.y then [((⟨hp.x, hp.y - 1⟩ : Point), hzo)] else [])
            ++ (if hp.x + 1 < w then [((⟨hp.x + 1, hp.y⟩ : Point), hzo)] else [])
            ++ (if 0 < hp.x then [((⟨hp.x - 1, hp.y⟩ : Point), hzo)] else [])),
            inb w h pz2.1 := by
          have hhpinb : inb w h hp := hinb (hp, hzo) (by simp)
          unfold inb at hhpinb
          obtain ⟨ha, hb, hc, hd⟩ := hhpinb
          intro pz2 hm2
          simp only [List.mem_append] at hm2
          rcases hm2 with ((((hm2 | hm2) | hm2) | hm2) | hm2)
          · exact hinb pz2 (by simp [hm2])
          · by_cases hcnd : hp.y + 1 < h
            · rw [if_pos hcnd] at hm2
              simp only [List.mem_singleton] at hm2
              rw [hm2]
              simp only [inb]
              omega
            · rw [if_neg hcnd] at hm2; simp at hm2
          · by_cases hcnd : 0 < hp.y
            · rw [if_pos hcnd] at hm2
              simp only [List.mem_singleton] at hm2
              rw [hm2]
              simp only [inb]
              omega
            · rw [if_neg hcnd] at hm2; simp at hm2
          · by_cases hcnd : hp.x + 1 < w
            · rw [if_pos hcnd] at hm2
              simp only [List.mem_singleton] at hm2
              rw [hm2]
              simp only [inb]
              omega
            · rw [if_neg hcnd] at hm2; simp at hm2
          · by_cases hcnd : 0 < hp.x
            · rw [if_pos hcnd] at hm2
              simp only [List.mem_singleton] at hm2
              rw [hm2]
              simp only [inb]
              omega
            · rw [if_neg hcnd] at hm2; simp at hm2
        by_cases hpp : grid_idx p.x p.y w = grid_idx hp.x hp.y w
        · have hphp : p = hp := grid_idx_inj w h p hp hpinb (hinb (hp, hzo) (by simp)) hpp
          subst hphp
          have hrmem : ((r, hzo) : Point × Nat) ∈ (rest
              ++ (if p.y + 1 < h then [((⟨p.x, p.y + 1⟩ : Point), hzo)] else [])
              ++ (if 0 < p.y then [((⟨p.x, p.y - 1⟩ : Point), hzo)] else [])
              ++ (if p.x + 1 < w then [((⟨p.x + 1, p.y⟩ : Point), hzo)] else [])
              ++ (if 0 < p.x then [((⟨p.x - 1, p.y⟩ : Point), hzo)] else [])) := by
            obtain ⟨hr1, hr2, hr3, hr4⟩ := hrinb
            simp only [List.mem_append]
            rcases hnbr with ⟨hx, hy | hy⟩ | ⟨hy, hx | hx⟩
            · refine Or.inl (Or.inl (Or.inl (Or.inr ?_)))
              rw [if_pos (by omega)]
              simp only [List.mem_singleton]
              have hr : r = (⟨p.x, p.y + 1⟩ : Point) := by
                obtain ⟨rx, ry⟩ := r
                dsimp only at hx hy
                rw [hx, hy]
              rw [hr]
            · refine Or.inl (Or.inl (Or.inr ?_))
              rw [if_pos (by omega)]
              simp only [List.mem_singleton]
              have hr : r = (⟨p.x, p.y - 1⟩ : Point) := by
                obtain ⟨rx, ry⟩ := r
                dsimp only at hx hy
                rw [hx, hy]
              rw [hr]
            · refine Or.inl (Or.inr ?_)
              rw [if_pos (by omega)]
              simp only [List.mem_singleton]
              have hr : r = (⟨p.x + 1, p.y⟩ : Point) := by
                obtain ⟨rx, ry⟩ := r
                dsimp only at hx hy
                rw [hx, hy]
              rw [hr]
            · refine Or.inr ?_
              rw [if_pos (by omega)]
              simp only [List.mem_singleton]
              have hr : r = (⟨p.x - 1, p.y⟩ : Point) := by
                obtain ⟨rx, ry⟩ := r
                dsimp only at hx hy
                rw [hx, hy]
              rw [hr]
          exact flood_loop_processed grid w h _ _ _ _ _ _ (by simpa using hlen)
            hpushzq hf (r, hzo) hrmem hre
        · have hund1 : (zs.set (grid_idx hp.x hp.y w) hzo).getD (grid_idx p.x p.y w) 255
              = 255 := by
            rw [getD_set_ne _ _ _ _ _ (fun e => hpp e.symm)]
            exact hund
          exact ih _ _ _ _ _ (by simpa using hlen) hpushzq hpushinb hf p hpinb hpe
            hund1 hlab r hnbr hrinb hre
      · rw [if_neg hcond] at hf
        exact ih _ _ _ _ _ hlen (fun pz2 hm2 => hzq pz2 (by simp [hm2]))
          (fun pz2 hm2 => hinb pz2 (by simp [hm2])) hf p hpinb hpe hund hlab r hnbr hrinb hre

theorem flood_loop_sound (grid : List Cell) (w h : Int) (N : Nat) :
    ∀ fuel q zs ze zs2 ze2,
      (∀ pz ∈ q, pz.2 < N) →
      (∀ i, zs.getD i 255 = 255 ∨
        (grid.getD i Cell.BLOCKED = Cell.EMPTY ∧ zs.getD i 255 < N)) →
      flood_loop grid w h fuel q zs ze = some (zs2, ze2) →
      ∀ i, zs2.getD i 255 = 255 ∨
        (grid.getD i Cell.BLOCKED = Cell.EMPTY ∧ zs2.getD i 255 < N) := by
  intro fuel
  induction fuel with
  | zero =>
    intro q zs ze zs2 ze2 hzq hinv hf i
    unfold flood_loop at hf
    split_ifs at hf
    injection hf with h2
    injection h2 with h3 h4
    rw [← h3]
    exact hinv i
  | succ n ih =>
    intro q zs ze zs2 ze2 hzq hinv hf i
    unfold flood_loop at hf
    rcases q with _ | ⟨⟨p, zone⟩, rest⟩
    · injection hf with h2
      injection h2 with h3 h4
      rw [← h3]
      exact hinv i
    · dsimp only at hf
      by_cases hcond : zs.getD (grid_idx p.x p.y w) 255 = 255 ∧
          grid.getD (grid_idx p.x p.y w) Cell.BLOCKED = Cell.EMPTY
      · rw [if_pos hcond] at hf
        refine ih _ _ _ _ _ ?_ ?_ hf i
        · intro pz2 hm2
          simp only [List.mem_append] at hm2
          rcases hm2 with ((((hm2 | hm2) | hm2) | hm2) | hm2)
          · exact hzq pz2 (by simp [hm2])
          · rw [mem_ite_singleton _ _ _ hm2]; exact hzq (p, zone) (by simp)
          · rw [mem_ite_singleton _ _ _ hm2]; exact hzq (p, zone) (by simp)
          · rw [mem_ite_singleton _ _ _ hm2]; exact hzq (p, zone) (by simp)
          · rw [mem_ite_singleton _ _ _ hm2]; exact hzq (p, zone) (by simp)
        · intro j
          by_cases hj : grid_idx p.x p.y w = j
          · subst hj
            by_cases hlt : grid_idx p.x p.y w < zs.length
            · right
              rw [getD_set_self _ _ _ _ (by simpa using hlt)]
              exact ⟨hcond.2, hzq (p, zone) (by simp)⟩
            · rw [List.set_eq_of_length_le (by omega)]
              exact hinv _
          · rw [getD_set_ne _ _ _ _ _ hj]
            exact hinv j
      · rw [if_neg hcond] at hf
        exact ih _ _ _ _ _ (fun pz2 hm2 => hzq pz2 (by simp [hm2])) hinv hf i

theorem flood_loop_count (grid : List Cell) (w h : Int) (N : Nat) (hN : N ≤ 255) :
    ∀ fuel q zs ze zs2 ze2,
      grid.length ≤ zs.length →
      (∀ pz ∈ q, pz.2 < N) →
      N ≤ ze.length →
      (∀ i, zs.getD i 255 = 255 ∨ zs.getD i 255 < N) →
      (∀ z, z < N → ze.getD z 0 = zs.count z) →
      flood_loop grid w h fuel q zs ze = some (zs2, ze2) →
      ∀ z, z < N → ze2.getD z 0 = zs2.count z := by
  intro fuel
  induction fuel with
  | zero =>
    intro q zs ze zs2 ze2 hlen hzq hzelen hvals hcnt hf z hz
    unfold flood_loop at hf
    split_ifs at hf
    injection hf with h2
    injection h2 with h3 h4
    rw [← h3, ← h4]
    exact hcnt z hz
  | succ n ih =>
    intro q zs ze zs2 ze2 hlen hzq hzelen hvals hcnt hf z hz
    unfold flood_loop at hf
    rcases q with _ | ⟨⟨p, zone⟩, rest⟩
    · injection hf with h2
      injection h2 with h3 h4
      rw [← h3, ← h4]
      exact hcnt z hz
    · dsimp only at hf
      by_cases hcond : zs.getD (grid_idx p.x p.y w) 255 = 255 ∧
          grid.getD (grid_idx p.x p.y w) Cell.BLOCKED = Cell.EMPTY
      · rw [if_pos hcond] at hf
        have hzone : zone < N := hzq (p, zone) (by simp)
        have hidx : grid_idx p.x p.y w < zs.length :=
          lt_of_lt_of_le (cellEmpty_lt grid w p hcond.2) hlen
        refine ih _ _ _ _ _ (by simpa using hlen) ?_ (by simpa using hzelen) ?_ ?_ hf z hz
        · intro pz2 hm2
          simp only [List.mem_append] at hm2
          rcases hm2 with ((((hm2 | hm2) | hm2) | hm2) | hm2)
          · exact hzq pz2 (by simp [hm2])
          · rw [mem_ite_singleton _ _ _ hm2]; exact hzone
          · rw [mem_ite_singleton _ _ _ hm2]; exact hzone
          · rw [mem_ite_singleton _ _ _ hm2]; exact hzone
          · rw [mem_ite_singleton _ _ _ hm2]; exact hzone
        · intro j
          by_cases hj : grid_idx p.x p.y w = j
          · subst hj
            rw [getD_set_self _ _ _ _ (by simpa using hidx)]
            right
            exact hzone
          · rw [getD_set_ne _ _ _ _ _ hj]
            exact hvals j
        · intro z2 hz2
          by_cases hzz : z2 = zone
          · subst hzz
            rw [getD_set_self _ _ _ _ (by omega),
              count_set_self zs _ _ 255 hidx (by rw [hcond.1]; omega)]
            rw [hcnt z2 hz2]
          · rw [getD_set_ne _ _ _ _ _ (fun e => hzz e.symm),
              count_set_other zs _ _ _ 255 (by rw [hcond.1]; omega) (fun e => hzz e.symm)]
            exact hcnt z2 hz2
      · rw [if_neg hcond] at hf
        exact ih _ _ _ _ _ hlen (fun pz2 hm2 => hzq pz2 (by simp [hm2])) hzelen hvals
          hcnt hf z hz

theorem seed_loop_spec (stream : Nat → Point) (N : Nat) (grid : List Cell) (w h : Int)
    (hN : N ≤ 255) (hs : ∀ i, inb w h (stream i)) :
    ∀ fuel i q0 q,
      q0.length ≤ N →
      (∀ pz ∈ q0, cellEmpty grid w pz.1) →
      (q0.map Prod.fst).Nodup →
      (∀ pz ∈ q0, inb w h pz.1) →
      q0.map Prod.snd = List.range q0.length →
      seed_loop stream N grid w fuel i q0 = some q →
      q.length = N ∧ (∀ pz ∈ q, cellEmpty grid w pz.1) ∧ (q.map Prod.fst).Nodup
        ∧ (∀ pz ∈ q, inb w h pz.1) ∧ q.map Prod.snd = List.range N := by
  intro fuel
  induction fuel with
  | zero =>
    intro i q0 q hq0len hq0e hq0nd hq0inb hq0ids hf
    unfold seed_loop at hf
    split_ifs at hf with hlt
    injection hf with h2
    subst h2
    have hlen : q0.length = N := by omega
    exact ⟨hlen, hq0e, hq0nd, hq0inb, by rw [hq0ids, hlen]⟩
  | succ n ih =>
    intro i q0 q hq0len hq0e hq0nd hq0inb hq0ids hf
    unfold seed_loop at hf
    split_ifs at hf with hlt
    rotate_left
    · -- queue already full
      injection hf with h2
      subst h2
      have hlen : q0.length = N := by omega
      exact ⟨hlen, hq0e, hq0nd, hq0inb, by rw [hq0ids, hlen]⟩
    dsimp only at hf
    by_cases hnew : grid.getD (grid_idx (stream i).x (stream i).y w) Cell.BLOCKED = Cell.EMPTY
        ∧ ∀ pz ∈ q0, pz.1 ≠ stream i
    · -- appended a fresh seed
      rw [if_pos hnew] at hf
      refine ih (i + 1) _ q ?_ ?_ ?_ ?_ ?_ hf
      · simp only [List.length_append, List.length_singleton]
        omega
      · intro pz hm
        rcases List.mem_append.mp hm with hm | hm
        · exact hq0e pz hm
        · simp only [List.mem_singleton] at hm
          rw [hm]
          exact hnew.1
      · rw [List.map_append]
        apply List.Nodup.append hq0nd (by simp)
        intro a ha hb
        simp only [List.map_cons, List.map_nil, List.mem_singleton] at hb
        subst hb
        obtain ⟨pz, hpz, hpe⟩ := List.mem_map.mp ha
        exact hnew.2 pz hpz (by rw [hpe])
      · intro pz hm
        rcases List.mem_append.mp hm with hm | hm
        · exact hq0inb pz hm
        · simp only [List.mem_singleton] at hm
          rw [hm]
          exact hs i
      · rw [List.map_append, hq0ids]
        simp only [List.map_cons, List.map_nil, List.length_append, List.length_singleton]
        rw [List.range_succ]
        have : q0.length % 256 = q0.length := Nat.mod_eq_of_lt (by omega)
        rw [this]
    · -- candidate rejected, loop on
      rw [if_neg hnew] at hf
      exact ih (i + 1) q0 q hq0len hq0e hq0nd hq0inb hq0ids hf

/-- Number of Clone bonuses among the parsed bonus list, mirroring the
parser's regex count of `C(x,y)` tokens in the bonus fragment. -/
def clone_count (bonuses : List (Point × Bonus)) : Nat :=
  (bonuses.filter (fun pb => decide (pb.2 = Bonus.CLONE))).length

theorem getD_replicate_self {α : Type} (n i : Nat) (a : α) :
    (List.replicate n a).getD i a = a := by
  induction n generalizing i with
  | zero => rfl
  | succ m ih =>
    cases i with
    | zero => rfl
    | succ j => exact ih j

theorem count_replicate_ne (n z a : Nat) (h : z ≠ a) :
    (List.replicate n a).count z = 0 := by
  induction n with
  | zero => rfl
  | succ m ih => simp [List.replicate_succ, List.count_cons, h, ih]

theorem flood_reach_labeled (grid : List Cell) (w h : Int) (fuel : Nat)
    (seeds : List (Point × Nat)) (zs0 ze0 zs2 ze2 : List Nat)
    (hlen : grid.length ≤ zs0.length)
    (hzq : ∀ pz ∈ seeds, pz.2 ≠ 255)
    (hinb : ∀ pz ∈ seeds, inb w h pz.1)
    (hund0 : ∀ i, zs0.getD i 255 = 255)
    (hf : flood_loop grid w h fuel seeds zs0 ze0 = some (zs2, ze2))
    (s : Point) (hsm : ∃ z, (s, z) ∈ seeds) (hse : cellEmpty grid w s)
    (hsinb : inb w h s) :
    ∀ p, reachE grid w h s p →
      inb w h p ∧ cellEmpty grid w p ∧ zs2.getD (grid_idx p.x p.y w) 255 ≠ 255 := by
  intro p hreach
  unfold reachE at hreach
  induction hreach with
  | refl =>
    obtain ⟨z, hz⟩ := hsm
    exact ⟨hsinb, hse,
      flood_loop_processed grid w h fuel seeds zs0 ze0 zs2 ze2 hlen hzq hf (s, z) hz hse⟩
  | tail hsteps hstep ih =>
    obtain ⟨qinb, qe, qlab⟩ := ih
    obtain ⟨hnbr, hrinb, hre⟩ := hstep
    exact ⟨hrinb, hre,
      flood_loop_closure grid w h fuel seeds zs0 ze0 zs2 ze2 hlen hzq hinb hf _ qinb qe
        (hund0 _) qlab _ hnbr hrinb hre⟩

/-- C7: counterexample to the claim that after `zones` every `EMPTY` cell of the
grid is labeled with one of the `N` zone ids.  On the 3x1 grid
`EMPTY, BLOCKED, EMPTY` with one zone whose seed lands on (0,0), the flood fill
terminates with the in-bounds `EMPTY` cell (2,0) still carrying the
`UNDECIDED` id 255: the fill only crosses 4-connected `EMPTY` cells, so an
`EMPTY` region holding no seed is never labeled. -/
theorem c7_counterexample :
    zones 1 [Cell.EMPTY, Cell.BLOCKED, Cell.EMPTY] 3 1 (fun _ => (⟨0, 0⟩ : Point)) 10 10
      = some ([0, 255, 255], [1])
    ∧ inb 3 1 (⟨2, 0⟩ : Point)
    ∧ cellEmpty [Cell.EMPTY, Cell.BLOCKED, Cell.EMPTY] 3 (⟨2, 0⟩ : Point)
    ∧ ([0, 255, 255] : List Nat).getD (grid_idx 2 0 3) 255 = 255 := by
  refine ⟨by decide, ⟨by decide, by decide, by decide, by decide⟩, ?_, by decide⟩
  unfold cellEmpty
  decide

/-- C7 (amended): when `zones` succeeds with `N ≤ 255` zones on a grid covered
by the `width * height` index range, the seed loop returns `N` distinct
in-bounds `EMPTY` seed cells tagged with the ids `0, …, N-1`; every in-bounds
`EMPTY` cell 4-connected to a seed through in-bounds `EMPTY` cells is labeled
(`≠ 255`); every labeled cell is an `EMPTY` cell carrying an id `< N` (all
other cells keep the `UNDECIDED` id 255, so `EMPTY` regions without a seed
stay unlabeled); and each per-zone counter equals the number of cells labeled
with that zone. -/
theorem c7_amended (N : Nat) (grid : List Cell) (w h : Int) (stream : Nat → Point)
    (fuel1 fuel2 : Nat) (zs ze : List Nat)
    (hN : N ≤ 255) (hglen : grid.length ≤ (w * h).toNat)
    (hstream : ∀ i, inb w h (stream i))
    (hz : zones N grid w h stream fuel1 fuel2 = some (zs, ze)) :
    ∃ seeds : List (Point × Nat),
      seed_loop stream N grid w fuel1 0 [] = some seeds
      ∧ seeds.length = N
      ∧ (∀ pz ∈ seeds, cellEmpty grid w pz.1 ∧ inb w h pz.1)
      ∧ (seeds.map Prod.fst).Nodup
      ∧ seeds.map Prod.snd = List.range N
      ∧ (∀ p, inb w h p → cellEmpty grid w p →
          (∃ pz ∈ seeds, reachE grid w h pz.1 p) →
          zs.getD (grid_idx p.x p.y w) 255 ≠ 255)
      ∧ (∀ i, zs.getD i 255 = 255 ∨
          (grid.getD i Cell.BLOCKED = Cell.EMPTY ∧ zs.getD i 255 < N))
      ∧ (∀ z, z < N → ze.getD z 0 = zs.count z) := by
  unfold zones at hz
  rcases hseed : seed_loop stream N grid w fuel1 0 [] with _ | seeds
  · rw [hseed] at hz
    exact Option.noConfusion hz
  rw [hseed] at hz
  dsimp only at hz
  obtain ⟨hq1, hq2, hq3, hq4, hq5⟩ := seed_loop_spec stream N grid w h hN hstream fuel1 0 []
    seeds (by simp) (by simp) (by simp) (by simp) (by simp) hseed
  have hzqN : ∀ pz ∈ seeds, pz.2 < N := by
    intro pz hm
    have h1 : pz.2 ∈ seeds.map Prod.snd := List.mem_map_of_mem _ hm
    rw [hq5] at h1
    exact List.mem_range.mp h1
  have hzq255 : ∀ pz ∈ seeds, pz.2 ≠ 255 := by
    intro pz hm
    have := hzqN pz hm
    omega
  have hlen0 : grid.length ≤ (List.replicate (w * h).toNat (255 : Nat)).length := by
    simpa using hglen
  have hund0 : ∀ i, (List.replicate (w * h).toNat (255 : Nat)).getD i 255 = 255 :=
    fun i => getD_replicate_self _ i 255
  refine ⟨seeds, rfl, hq1, fun pz hm => ⟨hq2 pz hm, hq4 pz hm⟩, hq3, hq5, ?_, ?_, ?_⟩
  · rintro p hpinb hpe ⟨pz, hpzmem, hreach⟩
    exact (flood_reach_labeled grid w h fuel2 seeds _ _ _ _ hlen0 hzq255 hq4 hund0 hz
      pz.1 ⟨pz.2, hpzmem⟩ (hq2 pz hpzmem) (hq4 pz hpzmem) p hreach).2.2
  · exact flood_loop_sound grid w h N fuel2 seeds _ _ zs ze hzqN
      (fun i => Or.inl (hund0 i)) hz
  · refine flood_loop_count grid w h N hN fuel2 seeds _ _ zs ze hlen0 hzqN
      (by simp) (fun i => Or.inl (hund0 i)) ?_ hz
    intro z2 hz2
    rw [getD_replicate_self, count_replicate_ne _ _ _ (by omega)]

/-- C7 (amended) witness: the one-cell level with a single zone seeded at
(0,0) satisfies every conjunct of the amended statement. -/
theorem c7_amended_witness :
    ∃ seeds : List (Point × Nat),
      seed_loop (fun _ => (⟨0, 0⟩ : Point)) 1 [Cell.EMPTY] 1 10 0 [] = some seeds
      ∧ seeds.length = 1
      ∧ (∀ pz ∈ seeds, cellEmpty [Cell.EMPTY] 1 pz.1 ∧ inb 1 1 pz.1)
      ∧ (seeds.map Prod.fst).Nodup
      ∧ seeds.map Prod.snd = List.range 1
      ∧ (∀ p, inb 1 1 p → cellEmpty [Cell.EMPTY] 1 p →
          (∃ pz ∈ seeds, reachE [Cell.EMPTY] 1 1 pz.1 p) →
          ([0] : List Nat).getD (grid_idx p.x p.y 1) 255 ≠ 255)
      ∧ (∀ i, ([0] : List Nat).getD i 255 = 255 ∨
          ([Cell.EMPTY].getD i Cell.BLOCKED = Cell.EMPTY ∧ ([0] : List Nat).getD i 255 < 1))
      ∧ (∀ z, z < 1 → ([1] : List Nat).getD z 0 = ([0] : List Nat).count z) :=
  c7_amended 1 [Cell.EMPTY] 1 1 (fun _ => ⟨0, 0⟩) 10 10 [0] [1] (by decide) (by decide)
    (fun i => by unfold inb; simp) (by decide)

/-- Folding `wrap_cell` over a list of points (the `for p in to_wrap` /
`for p in new_wrapped` loops), propagating the asserts as `none`. -/
def wrap_fold (ps : List Point) (ol : Option Level) : Option Level :=
  ps.foldl (fun acc p => acc.bind (fun l => l.wrap_cell p.x p.y)) ol

/-- Folding `drill_cell` over a list of points (the `for p in new_drilled`
loop), propagating the asserts as `none`. -/
def drill_fold (ps : List Point) (ol : Option Level) : Option Level :=
  ps.foldl (fun acc p => acc.bind (fun l => l.drill_cell p.x p.y)) ol

/-- Mirrors `Drone::wrap_bot`: wrap every cell covered from the current
position.  `ord` abstracts the iteration order of the `HashSet` `to_wrap`. -/
def Drone.wrap_bot (ord : List Point → List Point) (d : Drone) (l : Level) :
    Except String Level :=
  match would_wrap l d.hands d.pos [] with
  | Except.error e => Except.error e
  | Except.ok to_wrap =>
    match wrap_fold (ord to_wrap) (some l) with
    | some l2 => Except.ok l2
    | none => Except.error "wrap_cell: assert failed"

/-- Mirrors `Drone::collect`: pick up a bonus under the drone, incrementing
its collected counter and removing it from the map. -/
def Drone.collect (d : Drone) (l : Level) : Level :=
  match pGet l.bonuses d.pos with
  | some bonus =>
    { l with
      collected :=
        match aGet l.collected bonus with
        | some c => aInsert l.collected bonus (c + 1)
        | none => aInsert l.collected bonus 1
      bonuses := pRemove l.bonuses d.pos }
  | none => l

/-- Mirrors `Drone::wear_off`: decrement active wheels/drill timers. -/
def Drone.wear_off (d : Drone) : Drone :=
  { d with wheels := d.wheels - 1, drill := d.drill - 1 }

/-- Mirrors `Drone::has_space`: four free cells in a straight line in one of
the four directions. -/
def Drone.has_space (d : Drone) (l : Level) : Bool :=
  (([1, 2, 3, 4] : List Int).all (fun i =>
    l.valid d.pos.x (d.pos.y + i) &&
    decide (l.grid.getD (l.grid_idx d.pos.x (d.pos.y + i)) Cell.BLOCKED ≠ Cell.BLOCKED)))
  || (([1, 2, 3, 4] : List Int).all (fun i =>
    l.valid d.pos.x (d.pos.y - i) &&
    decide (l.grid.getD (l.grid_idx d.pos.x (d.pos.y - i)) Cell.BLOCKED ≠ Cell.BLOCKED)))
  || (([1, 2, 3, 4] : List Int).all (fun i =>
    l.valid (d.pos.x + i) d.pos.y &&
    decide (l.grid.getD (l.grid_idx (d.pos.x + i) d.pos.y) Cell.BLOCKED ≠ Cell.BLOCKED)))
  || (([1, 2, 3, 4] : List Int).all (fun i =>
    l.valid (d.pos.x - i) d.pos.y &&
    decide (l.grid.getD (l.grid_idx (d.pos.x - i) d.pos.y) Cell.BLOCKED ≠ Cell.BLOCKED)))

/-- Mirrors `Drone::activate_wheels`; `none` models the `false` branch. -/
def Drone.activate_wheels (d : Drone) (l : Level) : Option (Drone × Level) :=
  if 0 < get_or l.collected Bonus.WHEELS 0 ∧ d.wheels = 0 ∧ d.has_space l = true then
    some ({ d with wheels := 51, path := d.path ++ "F" },
          { l with collected := update l.collected Bonus.WHEELS (-1) })
  else none

/-- Mirrors `Drone::activate_drill`; `none` models the `false` branch. -/
def Drone.activate_drill (d : Drone) (l : Level) : Option (Drone × Level) :=
  if 0 < get_or l.collected Bonus.DRILL 0 ∧ d.drill = 0 then
    some ({ d with drill := 31, path := d.path ++ "L" },
          { l with collected := update l.collected Bonus.DRILL (-1) })
  else none

/-- Mirrors `Drone::activate_hand`; `none` models the `false` branch. -/
def Drone.activate_hand (d : Drone) (l : Level) : Option (Drone × Level) :=
  if 0 < get_or l.collected Bonus.HAND 0 then
    some ({ d with
            hands := d.hands ++ [⟨1, (d.hands.getLastD ⟨0, 0⟩).y + 1⟩]
            path := d.path ++ "B(" ++ toString (1 : Int) ++ ","
              ++ toString ((d.hands.getLastD ⟨0, 0⟩).y + 1) ++ ")" },
          { l with collected := update l.collected Bonus.HAND (-1) })
  else none

/-- Mirrors `Drone::reduplicate`: on a spawn point with a collected Clone,
consume it, append `C` to the path and return a fresh drone at this position. -/
def Drone.reduplicate (d : Drone) (l : Level) : Option (Drone × Drone × Level) :=
  if 0 < get_or l.collected Bonus.CLONE 0 ∧ d.pos ∈ l.spawns then
    some ({ d with path := d.path ++ "C" }, Drone.new d.pos,
          { l with collected := update l.collected Bonus.CLONE (-1) })
  else none

/-- Mirrors `fn max_wrapping`: 0 outside the drone's zone, 100 on a bonus,
otherwise the sum of the (at least 1) wall-weights of the cells that would be
wrapped.  `ord` abstracts the iteration order of the `HashSet` `wrapped`;
the `f64` sum is modelled exactly in `ℚ`. -/
def max_wrapping (ord : List Point → List Point) :
    Level → Drone → Point → Except String ℚ :=
  fun l d pos =>
    match l.get_zone pos.x pos.y with
    | Except.error e => Except.error e
    | Except.ok z =>
      if z ≠ d.zone then Except.ok 0
      else if (pGet l.bonuses pos).isSome = true then Except.ok 100
      else
        match would_wrap l d.hands pos [] with
        | Except.error e => Except.error e
        | Except.ok wrapped =>
          Except.ok (((ord wrapped).map (fun p =>
            max 1 ((l.weights.getD (l.grid_idx p.x p.y) 0 : ℚ)))).sum)

/-- Mirrors `fn find_clone_score`. -/
def find_clone_score : Level → Drone → Point → Except String ℚ :=
  fun l _ pos => Except.ok (if pGet l.bonuses pos = some Bonus.CLONE then 1 else 0)

/-- Mirrors `fn find_spawn_score`. -/
def find_spawn_score : Level → Drone → Point → Except String ℚ :=
  fun l _ pos => Except.ok (if pos ∈ l.spawns then 1 else 0)

/-- Mirrors `fn explore`: `explore_impl` keeping only the plan. -/
def explore (l : Level) (d : Drone) (rate : Level → Drone → Point → Except String ℚ)
    (fuel : Nat) : Option (Except String (Option (List Action))) :=
  match explore_impl l d rate fuel with
  | none => none
  | some (Except.error e) => some (Except.error e)
  | some (Except.ok r) => some (Except.ok (r.map (fun t => t.1)))

/-- Mirrors `fn explore_clone` (the gate around `explore` with
`find_clone_score`); a failed gate is the Rust `None`. -/
def explore_clone (l : Level) (d : Drone) (drone_idx : Nat) (fuel : Nat) :
    Option (Except String (Option (List Action))) :=
  if drone_idx = 0
      ∧ l.bonuses.any (fun pb => decide (pb.2 = Bonus.CLONE)) = true
      ∧ get_or l.collected Bonus.CLONE 0 = 0 then
    explore l d find_clone_score fuel
  else some (Except.ok none)

/-- Mirrors `fn explore_spawn`. -/
def explore_spawn (l : Level) (d : Drone) (drone_idx : Nat) (fuel : Nat) :
    Option (Except String (Option (List Action))) :=
  if drone_idx = 0 ∧ 0 < get_or l.collected Bonus.CLONE 0 then
    explore l d find_spawn_score fuel
  else some (Except.ok none)

/-- The rate closure of `Drone::choose_zone`: 1 on `EMPTY` cells whose zone is
in `looking_in`, 0 elsewhere (with the `get_cell`/`get_zone` asserts). -/
def rate_zone (looking_in : List Nat) : Level → Drone → Point → Except String ℚ :=
  fun l _ pos =>
    match l.get_cell pos.x pos.y with
    | Except.error e => Except.error e
    | Except.ok c =>
      if c = Cell.EMPTY then
        match l.get_zone pos.x pos.y with
        | Except.error e => Except.error e
        | Except.ok z => Except.ok (if z ∈ looking_in then 1 else 0)
      else Except.ok 0

/-- Mirrors `Drone::choose_zone`: when the drone has no zone or its zone has
no empty cells left, pick the zone of the best cell found by `explore_impl`
among the non-empty, preferably untaken zones; the `panic!` becomes an
error.  The `u8` cast of the zone count is modelled as `% 256`. -/
def choose_zone (d : Drone) (taken : List Nat) (l : Level) (fuel : Nat) :
    Option (Except String Drone) :=
  if d.zone = 255 ∨ l.zones_empty.getD d.zone 0 = 0 then
    match explore_impl l d
        (rate_zone
          (if 0 < ((List.range (l.zones_empty.length % 256)).filter (fun z =>
               decide (0 < l.zones_empty.getD z 0)
               && (taken.all (fun t => decide (t ≠ z))))).length then
            (List.range (l.zones_empty.length % 256)).filter (fun z =>
              decide (0 < l.zones_empty.getD z 0)
              && (taken.all (fun t => decide (t ≠ z))))
          else
            (List.range (l.zones_empty.length % 256)).filter (fun z =>
              decide (0 < l.zones_empty.getD z 0)))) fuel with
    | none => none
    | some (Except.error e) => some (Except.error e)
    | some (Except.ok none) => some (Except.error "No zone left to choose")
    | some (Except.ok (some (plan, pos, _))) =>
      match l.get_zone pos.x pos.y with
      | Except.error e => some (Except.error e)
      | Except.ok z => some (Except.ok { d with zone := z, plan := plan })
  else some (Except.ok d)

/-- Mirrors `Drone::act`: perform one action from the plan, append its path
token, wrap the newly covered cells and drill the newly drilled ones.  `ord`
abstracts the iteration orders of the `new_wrapped` / `new_drilled` sets; the
`panic!` on an unwalkable action becomes an error. -/
def Drone.act (ord : List Point → List Point) (d : Drone) (a : Action) (l : Level) :
    Except String (Drone × Level) :=
  match step l d.hands d.pos a (decide (0 < d.wheels)) (decide (0 < d.drill)) [] with
  | Except.error e => Except.error e
  | Except.ok none => Except.error "Unwalkable"
  | Except.ok (some (pos, new_wrapped, new_drilled)) =>
    let tok : String :=
      match a with
      | Action.UP => "W"
      | Action.DOWN => "S"
      | Action.LEFT => "A"
      | Action.RIGHT => "D"
      | Action.JUMP0 => "T(" ++ toString (l.beakons.getD 0 ⟨0, 0⟩).x ++ ","
          ++ toString (l.beakons.getD 0 ⟨0, 0⟩).y ++ ")"
      | Action.JUMP1 => "T(" ++ toString (l.beakons.getD 1 ⟨0, 0⟩).x ++ ","
          ++ toString (l.beakons.getD 1 ⟨0, 0⟩).y ++ ")"
      | Action.JUMP2 => "T(" ++ toString (l.beakons.getD 2 ⟨0, 0⟩).x ++ ","
          ++ toString (l.beakons.getD 2 ⟨0, 0⟩).y ++ ")"
    match wrap_fold (ord new_wrapped) (some l) with
    | none => Except.error "wrap_cell: assert failed"
    | some l2 =>
      match drill_fold (ord new_drilled) (some l2) with
      | none => Except.error "drill_cell: assert failed"
      | some l3 => Except.ok ({ d with pos := pos, path := d.path ++ tok }, l3)

/-- The `if drone.plan.is_empty()` block of `solve_impl`: reduplicate or
activate a boost (ending the turn, flag `true`), otherwise look for a plan
with the `explore_clone` / `explore_spawn` / `max_wrapping` chain.  Returns
the updated level and drone, an optional freshly cloned drone, and whether
the turn ends here (`continue`). -/
def plan_empty_block (ord : List Point → List Point) (fuel : Nat) (l : Level)
    (d : Drone) (i : Nat) : Option (Except String (Level × Drone × Option Drone × Bool)) :=
  if d.plan = [] then
    match d.reduplicate l with
    | some (d2, clone, l2) => some (Except.ok (l2, d2, some clone, true))
    | none =>
      match d.activate_wheels l with
      | some (d2, l2) => some (Except.ok (l2, d2, none, true))
      | none =>
        match d.activate_drill l with
        | some (d2, l2) => some (Except.ok (l2, d2, none, true))
        | none =>
          match d.activate_hand l with
          | some (d2, l2) => some (Except.ok (l2, d2, none, true))
          | none =>
            match d.set_beakon l with
            | some (d2, l2) => some (Except.ok (l2, d2, none, true))
            | none =>
              match explore_clone l d i fuel with
              | none => none
              | some (Except.error e) => some (Except.error e)
              | some (Except.ok (some plan)) =>
                some (Except.ok (l, { d with plan := plan }, none, false))
              | some (Except.ok none) =>
                match explore_spawn l d i fuel with
                | none => none
                | some (Except.error e) => some (Except.error e)
                | some (Except.ok (some plan)) =>
                  some (Except.ok (l, { d with plan := plan }, none, false))
                | some (Except.ok none) =>
                  match explore l d (max_wrapping ord) fuel with
                  | none => none
                  | some (Except.error e) => some (Except.error e)
                  | some (Except.ok (some plan)) =>
                    some (Except.ok (l, { d with plan := plan }, none, false))
                  | some (Except.ok none) => some (Except.ok (l, d, none, false))
  else some (Except.ok (l, d, none, false))

/-- One drone's turn inside the round loop of `solve_impl`: collect, wear
off, choose a zone, run the plan-empty block, then act on the next plan
action (or emit `Z` while wheels are active; the `panic!("Nothing to do")`
becomes an error). -/
def drone_turn (ord : List Point → List Point) (fuel : Nat) (l : Level)
    (drones : List Drone) (i : Nat) : Option (Except String (Level × List Drone)) :=
  match drones.get? i with
  | none => some (Except.error "drone index out of range")
  | some d0 =>
    let l1 := d0.collect l
    let d1 := d0.wear_off
    match choose_zone d1 (drones.map Drone.zone) l1 fuel with
    | none => none
    | some (Except.error e) => some (Except.error e)
    | some (Except.ok d2) =>
      match plan_empty_block ord fuel l1 d2 i with
      | none => none
      | some (Except.error e) => some (Except.error e)
      | some (Except.ok (l2, d3, cloneOpt, cont)) =>
        if cont then
          some (Except.ok (l2, drones.set i d3 ++
            (match cloneOpt with | some c => [c] | none => [])))
        else
          match d3.plan with
          | a :: rest =>
            match Drone.act ord { d3 with plan := rest } a l2 with
            | Except.error e => some (Except.error e)
            | Except.ok (d4, l3) => some (Except.ok (l3, drones.set i d4))
          | [] =>
            if 0 < d3.wheels then
              some (Except.ok (l2, drones.set i { d3 with path := d3.path ++ "Z" }))
            else some (Except.error "Nothing to do")

/-- The `for drone_idx in 0..drones.len()` round of `solve_impl`: `k` is the
number of turns left in this round (the drone count captured at round entry),
`i` the current index; the `if level.empty <= 0 break` guard ends the round
early. -/
def solve_round (ord : List Point → List Point) (fuel : Nat) :
    Nat → Nat → Level → List Drone → Option (Except String (Level × List Drone))
  | 0, _, l, drones => some (Except.ok (l, drones))
  | k + 1, i, l, drones =>
    if l.empty = 0 then some (Except.ok (l, drones))
    else
      match drone_turn ord fuel l drones i with
      | none => none
      | some (Except.error e) => some (Except.error e)
      | some (Except.ok (l2, drones2)) => solve_round ord fuel k (i + 1) l2 drones2

/-- The `while level.empty > 0` loop of `solve_impl`, with explicit fuel for
the number of rounds. -/
def solve_loop (ord : List Point → List Point) (fuel : Nat) :
    Nat → Level → List Drone → Option (Except String (Level × List Drone))
  | 0, l, drones => if l.empty = 0 then some (Except.ok (l, drones)) else none
  | f + 1, l, drones =>
    if l.empty = 0 then some (Except.ok (l, drones))
    else
      match solve_round ord fuel drones.length 0 l drones with
      | none => none
      | some (Except.error e) => some (Except.error e)
      | some (Except.ok (l2, drones2)) => solve_loop ord fuel f l2 drones2

/-- Mirrors `fn solve_impl` (without the interactive printing): wrap the
cells under the initial drone, run the round loop until no `EMPTY` cell is
left, then join the drones' paths with `#`.  `ord` abstracts every
`HashSet<Point>` iteration order; `fuel` bounds the loops (`none` = fuel
exhausted, which terminating Rust runs never are). -/
def solve_impl (ord : List Point → List Point) (fuel : Nat) (l : Level)
    (drones : List Drone) : Option (Except String String) :=
  match drones.get? 0 with
  | none => some (Except.error "no drones")
  | some d0 =>
    match Drone.wrap_bot ord d0 l with
    | Except.error e => some (Except.error e)
    | Except.ok l1 =>
      match solve_loop ord fuel fuel l1 drones with
      | none => none
      | some (Except.error e) => some (Except.error e)
      | some (Except.ok (_, drones2)) =>
        some (Except.ok (String.intercalate "#" (drones2.map Drone.path)))

/-- The level produced by a successful `wrap_cell` at grid index `idx`. -/
def wrapAt (l : Level) (idx : Nat) : Level :=
  { l with
    grid := l.grid.set idx Cell.WRAPPED
    empty := l.empty - 1
    zones_empty :=
      if l.zones.getD idx 255 < 255 then
        l.zones_empty.set (l.zones.getD idx 255)
          (l.zones_empty.getD (l.zones.getD idx 255) 0 - 1)
      else l.zones_empty }

/-- The level produced by a successful `drill_cell` at grid index `idx`. -/
def drillAt (l : Level) (idx : Nat) : Level :=
  { l with grid := l.grid.set idx Cell.WRAPPED }

theorem wrapAt_grid_idx (l : Level) (i : Nat) (x y : Int) :
    (wrapAt l i).grid_idx x y = l.grid_idx x y := rfl

theorem drillAt_grid_idx (l : Level) (i : Nat) (x y : Int) :
    (drillAt l i).grid_idx x y = l.grid_idx x y := rfl

theorem wrap_cell_of (l : Level) (x y : Int)
    (h1 : l.valid x y = true)
    (h2 : l.grid.getD (l.grid_idx x y) Cell.BLOCKED = Cell.EMPTY) :
    l.wrap_cell x y = some (wrapAt l (l.grid_idx x y)) := by
  unfold Level.wrap_cell wrapAt
  rw [if_pos h1]
  dsimp only
  rw [if_pos h2]

theorem wrap_cell_none (l : Level) (x y : Int)
    (h : ¬ (l.valid x y = true ∧ l.grid.getD (l.grid_idx x y) Cell.BLOCKED = Cell.EMPTY)) :
    l.wrap_cell x y = none := by
  unfold Level.wrap_cell
  by_cases h1 : l.valid x y = true
  · rw [if_pos h1]
    dsimp only
    rw [if_neg (fun h2 => h ⟨h1, h2⟩)]
  · rw [if_neg h1]

theorem drill_cell_of (l : Level) (x y : Int)
    (h1 : l.valid x y = true)
    (h2 : l.grid.getD (l.grid_idx x y) Cell.BLOCKED = Cell.BLOCKED) :
    l.drill_cell x y = some (drillAt l (l.grid_idx x y)) := by
  unfold Level.drill_cell drillAt
  rw [if_pos h1]
  dsimp only
  rw [if_pos h2]

theorem drill_cell_none (l : Level) (x y : Int)
    (h : ¬ (l.valid x y = true ∧ l.grid.getD (l.grid_idx x y) Cell.BLOCKED = Cell.BLOCKED)) :
    l.drill_cell x y = none := by
  unfold Level.drill_cell
  by_cases h1 : l.valid x y = true
  · rw [if_pos h1]
    dsimp only
    rw [if_neg (fun h2 => h ⟨h1, h2⟩)]
  · rw [if_neg h1]

theorem valid_inb (l : Level) (p : Point) (h : l.valid p.x p.y = true) :
    inb l.width l.height p := by
  unfold Level.valid at h
  simp only [Bool.and_eq_true, decide_eq_true_eq] at h
  exact ⟨h.1.1.1, h.1.1.2, h.1.2, h.2⟩

theorem valid_idx_ne (l : Level) (p q : Point) (hp : l.valid p.x p.y = true)
    (hq : l.valid q.x q.y = true) (hne : p ≠ q) :
    l.grid_idx p.x p.y ≠ l.grid_idx q.x q.y := by
  intro he
  exact hne (grid_idx_inj l.width l.height p q (valid_inb l p hp) (valid_inb l q hq) he)

theorem getD_ne_default_lt {α : Type} (g : List α) (i : Nat) (d : α)
    (h : g.getD i d ≠ d) : i < g.length := by
  by_contra hge
  rw [List.getD_eq_default] at h
  · exact h rfl
  · omega

theorem zesub_comm (A : List Nat) (zp zq : Nat) :
    (if zq < 255 then
      (if zp < 255 then A.set zp (A.getD zp 0 - 1) else A).set zq
        ((if zp < 255 then A.set zp (A.getD zp 0 - 1) else A).getD zq 0 - 1)
    else (if zp < 255 then A.set zp (A.getD zp 0 - 1) else A))
    = (if zp < 255 then
      (if zq < 255 then A.set zq (A.getD zq 0 - 1) else A).set zp
        ((if zq < 255 then A.set zq (A.getD zq 0 - 1) else A).getD zp 0 - 1)
    else (if zq < 255 then A.set zq (A.getD zq 0 - 1) else A)) := by
  by_cases hzp : zp < 255 <;> by_cases hzq : zq < 255
  · by_cases hz : zp = zq
    · subst hz
      simp only [if_pos hzp]
    · simp only [if_pos hzp, if_pos hzq]
      rw [getD_set_ne _ _ _ _ _ hz, getD_set_ne _ _ _ _ _ (Ne.symm hz),
        List.set_comm _ _ _ hz]
  · simp only [if_pos hzp, if_neg hzq]
  · simp only [if_neg hzp, if_pos hzq]
  · simp only [if_neg hzp, if_neg hzq]

theorem wrapAt_comm (l : Level) (i j : Nat) (hij : i ≠ j) :
    wrapAt (wrapAt l i) j = wrapAt (wrapAt l j) i := by
  unfold wrapAt
  dsimp only
  rw [List.set_comm _ _ _ hij, zesub_comm]

theorem drillAt_comm (l : Level) (i j : Nat) (hij : i ≠ j) :
    drillAt (drillAt l i) j = drillAt (drillAt l j) i := by
  unfold drillAt
  dsimp only
  rw [List.set_comm _ _ _ hij]

theorem wrap_bind_comm (p q : Point) (ol : Option Level) :
    (ol.bind (fun l => l.wrap_cell p.x p.y)).bind (fun l => l.wrap_cell q.x q.y)
    = (ol.bind (fun l => l.wrap_cell q.x q.y)).bind (fun l => l.wrap_cell p.x p.y) := by
  rcases ol with _ | l
  · rfl
  by_cases hpq : p = q
  · rw [hpq]
  dsimp only [Option.bind]
  by_cases hP : l.valid p.x p.y = true
      ∧ l.grid.getD (l.grid_idx p.x p.y) Cell.BLOCKED = Cell.EMPTY
  · obtain ⟨hvp, hep⟩ := hP
    by_cases hQ : l.valid q.x q.y = true
        ∧ l.grid.getD (l.grid_idx q.x q.y) Cell.BLOCKED = Cell.EMPTY
    · obtain ⟨hvq, heq⟩ := hQ
      have hipq : l.grid_idx p.x p.y ≠ l.grid_idx q.x q.y := valid_idx_ne l p q hvp hvq hpq
      rw [wrap_cell_of l p.x p.y hvp hep, wrap_cell_of l q.x q.y hvq heq]
      dsimp only [Option.bind]
      rw [wrap_cell_of (wrapAt l (l.grid_idx p.x p.y)) q.x q.y hvq
        (by
          show (l.grid.set (l.grid_idx p.x p.y) Cell.WRAPPED).getD
            (l.grid_idx q.x q.y) Cell.BLOCKED = Cell.EMPTY
          rw [getD_set_ne _ _ _ _ _ hipq]
          exact heq)]
      rw [wrap_cell_of (wrapAt l (l.grid_idx q.x q.y)) p.x p.y hvp
        (by
          show (l.grid.set (l.grid_idx q.x q.y) Cell.WRAPPED).getD
            (l.grid_idx p.x p.y) Cell.BLOCKED = Cell.EMPTY
          rw [getD_set_ne _ _ _ _ _ (Ne.symm hipq)]
          exact hep)]
      rw [wrapAt_grid_idx, wrapAt_grid_idx]
      exact congrArg some (wrapAt_comm l _ _ hipq)
    · rw [wrap_cell_none l q.x q.y hQ, wrap_cell_of l p.x p.y hvp hep]
      dsimp only [Option.bind]
      rw [wrap_cell_none (wrapAt l (l.grid_idx p.x p.y)) q.x q.y (by
        intro hc
        apply hQ
        refine ⟨hc.1, ?_⟩
        have hc2 : (l.grid.set (l.grid_idx p.x p.y) Cell.WRAPPED).getD
            (l.grid_idx q.x q.y) Cell.BLOCKED = Cell.EMPTY := hc.2
        by_cases hipq : l.grid_idx p.x p.y = l.grid_idx q.x q.y
        · rw [← hipq] at hc2
          rw [getD_set_self _ _ _ _ (getD_ne_default_lt l.grid _ _
            (by rw [hep]; intro hcc; exact Cell.noConfusion hcc))] at hc2
          exact Cell.noConfusion hc2
        · rw [getD_set_ne _ _ _ _ _ hipq] at hc2
          exact hc2)]
  · by_cases hQ : l.valid q.x q.y = true
      ∧ l.grid.getD (l.grid_idx q.x q.y) Cell.BLOCKED = Cell.EMPTY
    · obtain ⟨hvq, heq⟩ := hQ
      rw [wrap_cell_none l p.x p.y hP, wrap_cell_of l q.x q.y hvq heq]
      dsimp only [Option.bind]
      rw [wrap_cell_none (wrapAt l (l.grid_idx q.x q.y)) p.x p.y (by
        intro hc
        apply hP
        refine ⟨hc.1, ?_⟩
        have hc2 : (l.grid.set (l.grid_idx q.x q.y) Cell.WRAPPED).getD
            (l.grid_idx p.x p.y) Cell.BLOCKED = Cell.EMPTY := hc.2
        by_cases hipq : l.grid_idx q.x q.y = l.grid_idx p.x p.y
        · rw [← hipq] at hc2
          rw [getD_set_self _ _ _ _ (getD_ne_default_lt l.grid _ _
            (by rw [heq]; intro hcc; exact Cell.noConfusion hcc))] at hc2
          exact Cell.noConfusion hc2
        · rw [getD_set_ne _ _ _ _ _ hipq] at hc2
          exact hc2)]
    · rw [wrap_cell_none l p.x p.y hP, wrap_cell_none l q.x q.y hQ]

theorem drill_bind_comm (p q : Point) (ol : Option Level) :
    (ol.bind (fun l => l.drill_cell p.x p.y)).bind (fun l => l.drill_cell q.x q.y)
    = (ol.bind (fun l => l.drill_cell q.x q.y)).bind (fun l => l.drill_cell p.x p.y) := by
  rcases ol with _ | l
  · rfl
  by_cases hpq : p = q
  · rw [hpq]
  dsimp only [Option.bind]
  by_cases hP : l.valid p.x p.y = true
      ∧ l.grid.getD (l.grid_idx p.x p.y) Cell.BLOCKED = Cell.BLOCKED
  · obtain ⟨hvp, hep⟩ := hP
    by_cases hQ : l.valid q.x q.y = true
        ∧ l.grid.getD (l.grid_idx q.x q.y) Cell.BLOCKED = Cell.BLOCKED
    · obtain ⟨hvq, heq⟩ := hQ
      have hipq := valid_idx_ne l p q hvp hvq hpq
      rw [drill_cell_of l p.x p.y hvp hep, drill_cell_of l q.x q.y hvq heq]
      dsimp only [Option.bind]
      rw [drill_cell_of (drillAt l (l.grid_idx p.x p.y)) q.x q.y hvq
        (by
          show (l.grid.set (l.grid_idx p.x p.y) Cell.WRAPPED).getD
            (l.grid_idx q.x q.y) Cell.BLOCKED = Cell.BLOCKED
          rw [getD_set_ne _ _ _ _ _ hipq]
          exact heq)]
      rw [drill_cell_of (drillAt l (l.grid_idx q.x q.y)) p.x p.y hvp
        (by
          show (l.grid.set (l.grid_idx q.x q.y) Cell.WRAPPED).getD
            (l.grid_idx p.x p.y) Cell.BLOCKED = Cell.BLOCKED
          rw [getD_set_ne _ _ _ _ _ (Ne.symm hipq)]
          exact hep)]
      rw [drillAt_grid_idx, drillAt_grid_idx]
      exact congrArg some (drillAt_comm l _ _ hipq)
    · rw [drill_cell_none l q.x q.y hQ, drill_cell_of l p.x p.y hvp hep]
      dsimp only [Option.bind]
      rw [drill_cell_none (drillAt l (l.grid_idx p.x p.y)) q.x q.y (by
        intro hc
        apply hQ
        have hipq := valid_idx_ne l p q hvp hc.1 hpq
        refine ⟨hc.1, ?_⟩
        have hc2 : (l.grid.set (l.grid_idx p.x p.y) Cell.WRAPPED).getD
            (l.grid_idx q.x q.y) Cell.BLOCKED = Cell.BLOCKED := hc.2
        rw [getD_set_ne _ _ _ _ _ hipq] at hc2
        exact hc2)]
  · by_cases hQ : l.valid q.x q.y = true
      ∧ l.grid.getD (l.grid_idx q.x q.y) Cell.BLOCKED = Cell.BLOCKED
    · obtain ⟨hvq, heq⟩ := hQ
      rw [drill_cell_none l p.x p.y hP, drill_cell_of l q.x q.y hvq heq]
      dsimp only [Option.bind]
      rw [drill_cell_none (drillAt l (l.grid_idx q.x q.y)) p.x p.y (by
        intro hc
        apply hP
        have hipq := valid_idx_ne l q p hvq hc.1 (fun e => hpq e.symm)
        refine ⟨hc.1, ?_⟩
        have hc2 : (l.grid.set (l.grid_idx q.x q.y) Cell.WRAPPED).getD
            (l.grid_idx p.x p.y) Cell.BLOCKED = Cell.BLOCKED := hc.2
        rw [getD_set_ne _ _ _ _ _ hipq] at hc2
        exact hc2)]
    · rw [drill_cell_none l p.x p.y hP, drill_cell_none l q.x q.y hQ]

theorem wrap_fold_perm (ps ps2 : List Point) (h : ps.Perm ps2) (ol : Option Level) :
    wrap_fold ps ol = wrap_fold ps2 ol := by
  unfold wrap_fold
  exact h.foldl_eq' (fun x _ y _ z => wrap_bind_comm x y z) ol

theorem drill_fold_perm (ps ps2 : List Point) (h : ps.Perm ps2) (ol : Option Level) :
    drill_fold ps ol = drill_fold ps2 ol := by
  unfold drill_fold
  exact h.foldl_eq' (fun x _ y _ z => drill_bind_comm x y z) ol

theorem wrap_bot_ord (ord : List Point → List Point) (h : ∀ ps, (ord ps).Perm ps)
    (d : Drone) (l : Level) :
    Drone.wrap_bot ord d l = Drone.wrap_bot (fun ps => ps) d l := by
  unfold Drone.wrap_bot
  cases would_wrap l d.hands d.pos [] with
  | error e => rfl
  | ok tw =>
    dsimp only
    rw [wrap_fold_perm _ _ (h tw)]

theorem max_wrapping_ord (ord : List Point → List Point) (h : ∀ ps, (ord ps).Perm ps) :
    max_wrapping ord = max_wrapping (fun ps => ps) := by
  funext l d pos
  unfold max_wrapping
  cases l.get_zone pos.x pos.y with
  | error e => rfl
  | ok z =>
    dsimp only
    by_cases hz : z ≠ d.zone
    · simp only [if_pos hz]
    · simp only [if_neg hz]
      by_cases hb : (pGet l.bonuses pos).isSome = true
      · simp only [if_pos hb]
      · simp only [if_neg hb]
        cases would_wrap l d.hands pos [] with
        | error e => rfl
        | ok w =>
          dsimp only
          exact congrArg Except.ok (List.Perm.sum_eq ((h w).map _))

theorem act_ord (ord : List Point → List Point) (h : ∀ ps, (ord ps).Perm ps)
    (d : Drone) (a : Action) (l : Level) :
    Drone.act ord d a l = Drone.act (fun ps => ps) d a l := by
  unfold Drone.act
  cases step l d.hands d.pos a (decide (0 < d.wheels)) (decide (0 < d.drill)) [] with
  | error e => rfl
  | ok r =>
    cases r with
    | none => rfl
    | some t =>
      obtain ⟨pos, nw, nd⟩ := t
      dsimp only
      rw [wrap_fold_perm _ _ (h nw)]
      cases wrap_fold nw (some l) with
      | none => rfl
      | some l2 =>
        dsimp only
        rw [drill_fold_perm _ _ (h nd)]

theorem plan_empty_block_ord (ord : List Point → List Point) (h : ∀ ps, (ord ps).Perm ps)
    (fuel : Nat) (l : Level) (d : Drone) (i : Nat) :
    plan_empty_block ord fuel l d i = plan_empty_block (fun ps => ps) fuel l d i := by
  unfold plan_empty_block
  rw [max_wrapping_ord ord h]

theorem drone_turn_ord (ord : List Point → List Point) (h : ∀ ps, (ord ps).Perm ps)
    (fuel : Nat) (l : Level) (drones : List Drone) (i : Nat) :
    drone_turn ord fuel l drones i = drone_turn (fun ps => ps) fuel l drones i := by
  unfold drone_turn
  cases drones.get? i with
  | none => rfl
  | some d0 =>
    dsimp only
    cases choose_zone d0.wear_off (drones.map Drone.zone) (d0.collect l) fuel with
    | none => rfl
    | some r =>
      cases r with
      | error e => rfl
      | ok d2 =>
        dsimp only
        rw [plan_empty_block_ord ord h fuel (d0.collect l) d2 i]
        cases plan_empty_block (fun ps => ps) fuel (d0.collect l) d2 i with
        | none => rfl
        | some r2 =>
          cases r2 with
          | error e => rfl
          | ok t =>
            obtain ⟨l2, d3, cloneOpt, cont⟩ := t
            dsimp only
            cases cont with
            | true => rfl
            | false =>
              cases hp : d3.plan with
              | nil => rfl
              | cons a rest =>
                dsimp only
                rw [act_ord ord h { d3 with plan := rest } a l2]

theorem solve_round_ord (ord : List Point → List Point) (h : ∀ ps, (ord ps).Perm ps)
    (fuel : Nat) :
    ∀ k i (l : Level) (drones : List Drone),
      solve_round ord fuel k i l drones = solve_round (fun ps => ps) fuel k i l drones := by
  intro k
  induction k with
  | zero => intro i l ds; rfl
  | succ n ih =>
    intro i l ds
    unfold solve_round
    by_cases he : l.empty = 0
    · simp only [if_pos he]
    · simp only [if_neg he]
      rw [drone_turn_ord ord h fuel l ds i]
      cases drone_turn (fun ps => ps) fuel l ds i with
      | none => rfl
      | some r =>
        cases r with
        | error e => rfl
        | ok t =>
          obtain ⟨l2, ds2⟩ := t
          dsimp only
          exact ih (i + 1) l2 ds2

theorem solve_loop_ord (ord : List Point → List Point) (h : ∀ ps, (ord ps).Perm ps)
    (fuel : Nat) :
    ∀ f (l : Level) (drones : List Drone),
      solve_loop ord fuel f l drones = solve_loop (fun ps => ps) fuel f l drones := by
  intro f
  induction f with
  | zero => intro l ds; rfl
  | succ n ih =>
    intro l ds
    unfold solve_loop
    by_cases he : l.empty = 0
    · simp only [if_pos he]
    · simp only [if_neg he]
      rw [solve_round_ord ord h fuel ds.length 0 l ds]
      cases solve_round (fun ps => ps) fuel ds.length 0 l ds with
      | none => rfl
      | some r =>
        cases r with
        | error e => rfl
        | ok t =>
          obtain ⟨l2, ds2⟩ := t
          dsimp only
          exact ih l2 ds2

theorem solve_impl_ord (ord : List Point → List Point) (h : ∀ ps, (ord ps).Perm ps)
    (fuel : Nat) (l : Level) (drones : List Drone) :
    solve_impl ord fuel l drones = solve_impl (fun ps => ps) fuel l drones := by
  unfold solve_impl
  cases drones.get? 0 with
  | none => rfl
  | some d0 =>
    dsimp only
    rw [wrap_bot_ord ord h d0 l]
    cases Drone.wrap_bot (fun ps => ps) d0 l with
    | error e => rfl
    | ok l1 =>
      dsimp only
      rw [solve_loop_ord ord h fuel fuel l1 drones]

/-- C9: two-run determinism of the solver.  Once the zone generator's seed is
fixed (the zone map is part of the `Level`), the only nondeterministic
ingredient of `solve_impl` is the iteration order of its `HashSet<Point>`
collections (the wrapped/drilled-cell folds and the `max_wrapping` score sum);
any two runs whose iteration orders are arbitrary permutations of the same
sets produce identical results, output path strings included. -/
theorem c9_solver_deterministic (ord1 ord2 : List Point → List Point)
    (h1 : ∀ ps, (ord1 ps).Perm ps) (h2 : ∀ ps, (ord2 ps).Perm ps)
    (fuel : Nat) (l : Level) (drones : List Drone) :
    solve_impl ord1 fuel l drones = solve_impl ord2 fuel l drones := by
  rw [solve_impl_ord ord1 h1 fuel l drones, solve_impl_ord ord2 h2 fuel l drones]

/-- C9 witness: reversed versus in-order set iteration agree on the one-cell
level. -/
theorem c9_solver_deterministic_witness :
    solve_impl List.reverse 5 lvl1 [Drone.new ⟨0, 0⟩]
      = solve_impl (fun ps => ps) 5 lvl1 [Drone.new ⟨0, 0⟩] :=
  c9_solver_deterministic List.reverse (fun ps => ps)
    (fun ps => ps.reverse_perm) (fun ps => List.Perm.refl ps) 5 lvl1 [Drone.new ⟨0, 0⟩]

end Icfp


